import Mathlib

/-!
Verification of the Muxage-Python repository (batch muxing of VOSTFR/VF
episode files).  The definitions below are a shallow embedding of the
Python sources:

* `src/muxage/models.py`   - constants, `EpisodeJob` field list
* `src/muxage/media.py`    - key extraction, directory scan, speedfix decision
* `src/muxage/processor.py`- pair building, audio preprocessing, episode pipeline
* `src/muxage/builder.py`  - the two directional mux-command builders
* `src/mux_multi.py`       - the legacy single-direction variant

Machine integers are modelled as `Int`/`Nat`; Python floats that feed the
frame-rate comparison are modelled as `ℚ` (all the numbers involved are
small decimal literals, so the rational model agrees with the float code on
every value the claims touch).  Filesystem and subprocess effects are
modelled with an explicit environment (`Env`) plus an action trace.
-/

/-- The class `\w` for the ASCII file names handled by the tool: letters, digits, `_`. -/
def isWordChar (c : Char) : Bool := c.isAlphanum || c == '_'

/-- A regex word boundary `\b` holds after a digit when the rest of the
string is empty or starts with a non-word character. -/
def boundaryAfter : List Char → Bool
  | [] => true
  | c :: _ => !isWordChar c

/-- Match the `(\d{2,3})\b` part of `EP_REGEX`/`RELAX_EP_REGEX`
(models.py line 12-13): greedily try three digits with a trailing word
boundary, then fall back to two digits with a trailing word boundary. -/
def grabDigits : List Char → Option (List Char)
  | d1 :: d2 :: tail =>
    if d1.isDigit && d2.isDigit then
      match tail with
      | d3 :: tail2 =>
        if d3.isDigit && boundaryAfter tail2 then some [d1, d2, d3]
        else if boundaryAfter tail then some [d1, d2]
        else none
      | [] => some [d1, d2]
    else none
  | _ => none

/-- Leading word boundary `\b` before the `E`: start of string or a
non-word previous character. -/
def leadBoundary : Option Char → Bool
  | none => true
  | some pc => !isWordChar pc

/-- Model of `re.search` for the pattern `[Ee](\d{2,3})\b`, with `requireLead`
selecting the strict variant `\b[Ee](\d{2,3})\b` (`EP_REGEX`) versus the
relaxed variant `(?i)E(\d{2,3})\b` (`RELAX_EP_REGEX`).  Scans left to
right and returns the digit group of the leftmost match. -/
def searchEp (requireLead : Bool) (prev : Option Char) : List Char → Option (List Char)
  | [] => none
  | c :: rest =>
    if (c == 'E' || c == 'e') && (!requireLead || leadBoundary prev) then
      match grabDigits rest with
      | some ds => some ds
      | none => searchEp requireLead (some c) rest
    else searchEp requireLead (some c) rest

/-- Embedding of `media.extract_episode_key` (media.py lines 108-119): strict pattern
first; if it fails and `relax` is set, retry with the relaxed pattern.
The key is rendered as `E` followed by the captured digits. -/
def extract_episode_key (name : String) (relax : Bool) : Option String :=
  match searchEp true none name.data with
  | some ds => some ("E" ++ String.mk ds)
  | none =>
    if relax then
      match searchEp false none name.data with
      | some ds => some ("E" ++ String.mk ds)
      | none => none
    else none

/-! Kernel-reducible replacements for the string primitives the Python
code uses (`str.lower`, `fnmatch`/`endswith`, `startswith`, `split`,
`join`); they operate on the underlying character lists. -/

def pyLower (s : String) : String := String.mk (s.data.map Char.toLower)

def strEndsWith (s t : String) : Bool := t.data.isSuffixOf s.data

def strStartsWith (s t : String) : Bool := t.data.isPrefixOf s.data

/-- Model of `str.split(sep)` on a single-character separator. -/
def splitOnChar (sep : Char) (s : String) : List String :=
  (s.data.foldr
    (fun c acc =>
      if c == sep then [] :: acc
      else (c :: acc.headD []) :: acc.tailD []) [[]]).map String.mk

/-- Model of `sep.join(parts)`. -/
def joinParts (sep : String) : List String → String
  | [] => ""
  | p :: rest => rest.foldl (fun acc q => acc ++ sep ++ q) p

/-- The media-extension allowlist of `scan_dir_for_keys`
(media.py lines 126-129); `fnmatch(f.lower(), "*.ext")` is exactly a
lower-cased `endsWith` test. -/
def mediaExtOk (f : String) : Bool :=
  [".mkv", ".mp4", ".m4v", ".mov", ".avi", ".mpg", ".ts",
   ".mka", ".flac", ".aac", ".ac3", ".dts", ".opus", ".mp3", ".wav", ".m4a"].any
    (fun ext => strEndsWith (pyLower f) ext)

/-- One file met during `os.walk`: the parts of its containing directory
(`root`), its name, and its stat mtime (`none` models a failing `stat`). -/
structure FileEntry where
  rootParts : List String
  name : String
  mtime : Option Int
deriving DecidableEq, Repr

/-- Depth `len((Path(root) / f).parts)` — depth of the full path. -/
def FileEntry.depth (e : FileEntry) : Nat := e.rootParts.length + 1

/-- The duplicate-key resolution of `scan_dir_for_keys`
(media.py lines 137-145): the new file replaces the existing one when it
is strictly shallower; otherwise the mtimes are compared and the newer
file wins; a failing `stat` (modelled by a `none` mtime) keeps the
existing file (the `except Exception: pass`). -/
def resolveDup (existing p : FileEntry) : FileEntry :=
  if existing.depth > p.depth then p
  else
    match p.mtime, existing.mtime with
    | some pm, some em => if pm > em then p else existing
    | _, _ => existing

/-- One iteration of the inner loop of `scan_dir_for_keys`: skip files
without a media extension or without an episode key, insert new keys,
resolve duplicates in place. -/
def scanStep (relax : Bool) (m : List (String × FileEntry)) (e : FileEntry) :
    List (String × FileEntry) :=
  if mediaExtOk e.name then
    match extract_episode_key e.name relax with
    | some key =>
      match m.lookup key with
      | none => m ++ [(key, e)]
      | some existing => m.map (fun kv => if kv.1 = key then (key, resolveDup existing e) else kv)
    | none => m
  else m

/-- Embedding of `media.scan_dir_for_keys` (media.py lines 122-146) over the list of
files produced by `os.walk`, in walk order. -/
def scan_dir_for_keys (tree : List FileEntry) (relax : Bool) : List (String × FileEntry) :=
  tree.foldl (scanStep relax) []

/-- The `key=lambda k: (len(k), k)` sort order used by `build_pairs`. -/
def keyLe (k1 k2 : String) : Prop :=
  k1.length < k2.length ∨ (k1.length = k2.length ∧ k1 ≤ k2)

instance : DecidableRel keyLe := fun k1 k2 => by
  unfold keyLe; infer_instance

instance : IsTotal String keyLe where
  total a b := by
    rcases Nat.lt_trichotomy a.length b.length with h | h | h
    · exact Or.inl (Or.inl h)
    · rcases le_total a b with h2 | h2
      · exact Or.inl (Or.inr ⟨h, h2⟩)
      · exact Or.inr (Or.inr ⟨h.symm, h2⟩)
    · exact Or.inr (Or.inl h)

instance : IsTrans String keyLe where
  trans a b c hab hbc := by
    rcases hab with h1 | ⟨e1, l1⟩
    · rcases hbc with h2 | ⟨e2, _⟩
      · exact Or.inl (h1.trans h2)
      · exact Or.inl (e2 ▸ h1)
    · rcases hbc with h2 | ⟨e2, l2⟩
      · exact Or.inl (e1 ▸ h2)
      · exact Or.inr ⟨e1.trans e2, le_trans l1 l2⟩

/-- Embedding of `processor.build_pairs` (processor.py lines 26-33): scan both trees,
intersect the key sets, sort by `(len(key), key)` and read both maps. -/
def build_pairs (treeA treeB : List FileEntry) (relax : Bool) :
    List (String × FileEntry × FileEntry) :=
  let aMap := scan_dir_for_keys treeA relax
  let bMap := scan_dir_for_keys treeB relax
  let keys := ((aMap.map Prod.fst).filter (fun k => (bMap.lookup k).isSome)).insertionSort keyLe
  keys.filterMap (fun k =>
    match aMap.lookup k, bMap.lookup k with
    | some a, some b => some (k, a, b)
    | _, _ => none)

-- Sanity checks of the key-extraction engine against the spec's examples.
theorem extract_key_strict_example : extract_episode_key "Show.E07.mkv" false = some "E07" := by
  decide

theorem extract_key_compound_relaxed :
    extract_episode_key "Show.S01E01.mkv" false = none ∧
    extract_episode_key "Show.S01E01.mkv" true = some "E01" := by
  constructor <;> decide

/-! ### Media stream model and speedfix decision (models.py, media.py) -/

/-- Constants from models.py lines 16-20. -/
def EPSILON_FPS : ℚ := 2/100

def FPS_VFR_TARGET : ℚ := 24000/1001

def FPS_PAL : ℚ := 25

def LANG_FR_SET : List String := ["fra", "fre", "fr"]

def LANG_JP_SET : List String := ["jpn", "ja", "japanese"]

/-- The `MediaStreams` dataclass (models.py lines 23-32).  The per-index dictionaries are
association lists; `fps` is the optionally detected frame rate. -/
structure MediaStreams where
  video_indices : List Nat
  audio_indices : List Nat
  subtitle_indices : List Nat
  attachment_indices : List Nat
  audio_langs : List (Nat × String)
  subtitle_langs : List (Nat × String)
  audio_channels : List (Nat × Int)
  fps : Option ℚ
deriving DecidableEq, Repr

/-- Embedding of `media.approx_equal` (media.py lines 94-95). -/
def approx_equal (a b tol : ℚ) : Bool := |a - b| ≤ tol

/-- Embedding of `media.decide_speedfix` (media.py lines 98-105): false on override or a
missing rate; true exactly when the base rate is within `EPSILON_FPS` of
`FPS_VFR_TARGET` and the donor rate is within `EPSILON_FPS` of `FPS_PAL`. -/
def decide_speedfix (base_ms donor_ms : MediaStreams) (no_speedfix : Bool) : Bool :=
  if no_speedfix then false
  else
    match base_ms.fps, donor_ms.fps with
    | some bf, some df =>
      if approx_equal bf FPS_VFR_TARGET EPSILON_FPS && approx_equal df FPS_PAL EPSILON_FPS then
        true
      else false
    | _, _ => false

/-- Embedding of `media.find_first_jpn_audio_index` (media.py lines 149-154). -/
def find_first_jpn_audio_index (ms : MediaStreams) : Option Nat :=
  ms.audio_indices.find? (fun idx =>
    let lang := pyLower ((ms.audio_langs.lookup idx).getD "")
    LANG_JP_SET.contains lang || strStartsWith lang "jp")

/-- Embedding of `media.select_fr_audio_stream` (media.py lines 157-162). -/
def select_fr_audio_stream (ms : MediaStreams) : Option Nat :=
  ms.audio_indices.find? (fun idx =>
    let lang := pyLower ((ms.audio_langs.lookup idx).getD "")
    LANG_FR_SET.contains lang)

/-- Embedding of `media.first_fr_subtitle_index` (media.py lines 165-170). -/
def first_fr_subtitle_index (ms : MediaStreams) : Option Nat :=
  ms.subtitle_indices.find? (fun idx =>
    let lang := pyLower ((ms.subtitle_langs.lookup idx).getD "")
    LANG_FR_SET.contains lang)

/-! ### Mux command builders (builder.py, mux_multi.py)

The Python builders assemble a flat `List[str]` ffmpeg command.  The
repeated source blocks (audio `-map` selection with the `try: .index`
fallback, codec flags, metadata/disposition flags, default-subtitle
disposition) are factored into named helpers below; each helper is a
verbatim rendering of the corresponding source block. -/

/-- The `-map` flags of an audio stream by relative index with absolute-index
fallback: the `try: rel = ms.audio_indices.index(i) ... except: map i`
blocks (builder.py lines 42-46, 50-54, 57-61, 66-70, 169-173, 182-186).
`input` is the ffmpeg input ordinal (0 or 1). -/
def mapAudioRel (input : Nat) (ms : MediaStreams) (idx : Nat) : List String :=
  match ms.audio_indices.findIdx? (· == idx) with
  | some rel => ["-map", toString input ++ ":a:" ++ toString rel]
  | none => ["-map", toString input ++ ":" ++ toString idx]

/-- VF-audio `-map` from input 1 in `build_mux_command_vf_to_vostfr`
(builder.py lines 38-48 and 62-72). -/
def mapVfAudio (use_temp : Bool) (fr_idx : Option Nat) (vf_ms : MediaStreams) : List String :=
  if use_temp then ["-map", "1:a:0"]
  else
    match fr_idx with
    | some i => mapAudioRel 1 vf_ms i
    | none => ["-map", "1:a:0"]

/-- Codec flags (builder.py lines 79-97 and 199-218): with a preprocessed
temp the source has two identical per-stream branches, otherwise one
global copy. -/
def codecChunk (use_temp default_vf : Bool) : List String :=
  if use_temp then
    if default_vf then
      ["-c:v", "copy", "-c:s", "copy", "-c:a:0", "copy", "-c:a:1", "copy"]
    else
      ["-c:v", "copy", "-c:s", "copy", "-c:a:0", "copy", "-c:a:1", "copy"]
  else ["-c:v", "copy", "-c:s", "copy", "-c:a", "copy"]

/-- Metadata and disposition flags (builder.py lines 100-119 and 221-240;
the block is identical in both directional builders). -/
def metaDispChunk (default_vf : Bool) : List String :=
  if default_vf then
    ["-metadata:s:a:0", "language=fra",
     "-metadata:s:a:0", "title=VF",
     "-disposition:a:0", "default",
     "-metadata:s:a:1", "language=jpn",
     "-metadata:s:a:1", "title=VO (Japonais)",
     "-disposition:a:1", "0"]
  else
    ["-metadata:s:a:0", "language=jpn",
     "-metadata:s:a:0", "title=VO (Japonais)",
     "-disposition:a:0", "default",
     "-metadata:s:a:1", "language=fra",
     "-metadata:s:a:1", "title=VF",
     "-disposition:a:1", "0"]

/-- Default-FR-subtitle disposition (builder.py lines 121-129 and 242-250):
position of the first FR subtitle within the ordered subtitle list. -/
def subDispChunk (vostfr_ms : MediaStreams) : List String :=
  match first_fr_subtitle_index vostfr_ms with
  | some fr_sub_idx =>
    if vostfr_ms.subtitle_indices = [] then []
    else
      match vostfr_ms.subtitle_indices.findIdx? (· == fr_sub_idx) with
      | some rel => ["-disposition:s:" ++ toString rel, "default"]
      | none => []
  | none => []

/-- Embedding of `builder.build_mux_command_vf_to_vostfr` (builder.py lines 10-132):
base = VOSTFR (input 0, video + VO + subs + attachments), donor = VF
(input 1, FR audio, possibly a preprocessed temp FLAC). -/
def build_mux_command_vf_to_vostfr
    (vostfr_path vf_audio_path_or_input : String)
    (use_temp_processed_audio : Bool)
    (vo_jpn_stream_index_in_vostfr : Nat)
    (fr_stream_index_in_vf : Option Nat)
    (vostfr_ms vf_ms : MediaStreams)
    (out_path : String)
    (default_vf : Bool) : List String :=
  ["ffmpeg", "-y", "-v", "error",
   "-i", vostfr_path, "-i", vf_audio_path_or_input, "-map_chapters", "0"]
  ++ ["-map", "0:v:0"]
  ++ (if default_vf then
        mapVfAudio use_temp_processed_audio fr_stream_index_in_vf vf_ms
          ++ mapAudioRel 0 vostfr_ms vo_jpn_stream_index_in_vostfr
      else
        mapAudioRel 0 vostfr_ms vo_jpn_stream_index_in_vostfr
          ++ mapVfAudio use_temp_processed_audio fr_stream_index_in_vf vf_ms)
  ++ (if vostfr_ms.subtitle_indices = [] then [] else ["-map", "0:s?"])
  ++ ["-map", "0:t?"]
  ++ codecChunk use_temp_processed_audio default_vf
  ++ metaDispChunk default_vf
  ++ subDispChunk vostfr_ms
  ++ [out_path]

/-- FR-audio `-map` from input 0 (the VF base) in
`build_mux_command_vostfr_to_vf` (builder.py lines 161-164 and 189-192):
absolute index, `1:a:0`-style fallback. -/
def mapFrAbs (fr_idx : Option Nat) : List String :=
  match fr_idx with
  | some i => ["-map", "0:" ++ toString i]
  | none => ["-map", "0:a:0"]

/-- VO-audio `-map` from input 1 (the donor side) in
`build_mux_command_vostfr_to_vf` (builder.py lines 165-175 and 178-188). -/
def mapVoDonor (use_temp : Bool) (vo_idx : Option Nat) (vostfr_ms : MediaStreams) : List String :=
  if use_temp then ["-map", "1:a:0"]
  else
    match vo_idx with
    | some i => mapAudioRel 1 vostfr_ms i
    | none => ["-map", "1:a:0"]

/-- Embedding of `builder.build_mux_command_vostfr_to_vf` (builder.py lines 135-253):
base = VF (input 0, video + FR), donor = VOSTFR side (input 1 — the
original file, or the preprocessed temp FLAC when
`use_temp_processed_audio` is set).  Subtitles and attachments are mapped
from input 1 (`1:s?`, `1:t?`). -/
def build_mux_command_vostfr_to_vf
    (vf_path vostfr_audio_or_input : String)
    (use_temp_processed_audio : Bool)
    (vo_jpn_stream_index_in_vostfr : Option Nat)
    (fr_stream_index_in_vf : Option Nat)
    (vostfr_ms : MediaStreams)
    (out_path : String)
    (default_vf : Bool) : List String :=
  ["ffmpeg", "-y", "-v", "error",
   "-i", vf_path, "-i", vostfr_audio_or_input, "-map_chapters", "0"]
  ++ ["-map", "0:v:0"]
  ++ (if default_vf then
        mapFrAbs fr_stream_index_in_vf
          ++ mapVoDonor use_temp_processed_audio vo_jpn_stream_index_in_vostfr vostfr_ms
      else
        mapVoDonor use_temp_processed_audio vo_jpn_stream_index_in_vostfr vostfr_ms
          ++ mapFrAbs fr_stream_index_in_vf)
  ++ (if vostfr_ms.subtitle_indices = [] then [] else ["-map", "1:s?"])
  ++ ["-map", "1:t?"]
  ++ codecChunk use_temp_processed_audio default_vf
  ++ metaDispChunk default_vf
  ++ subDispChunk vostfr_ms
  ++ [out_path]

namespace MuxMulti

/-- Embedding of `mux_multi.build_mux_command` (mux_multi.py lines 413-509): the legacy
single-direction builder; VO is always mapped by absolute index, order is
always VO first. -/
def build_mux_command
    (vostfr_path vf_audio_path_or_input : String)
    (use_temp_processed_audio : Bool)
    (vo_jpn_stream_index : Nat)
    (fr_stream_index_in_vf : Option Nat)
    (vostfr_ms : MediaStreams)
    (out_path : String)
    (set_default_fr_sub_idx : Option Nat) : List String :=
  ["ffmpeg", "-y", "-v", "error",
   "-i", vostfr_path, "-i", vf_audio_path_or_input, "-map_chapters", "0"]
  ++ ["-map", "0:v:0"]
  ++ ["-map", "0:" ++ toString vo_jpn_stream_index]
  ++ (if use_temp_processed_audio then ["-map", "1:a:0"]
      else
        match fr_stream_index_in_vf with
        | none => ["-map", "1:a:0"]
        | some i => ["-map", "1:" ++ toString i])
  ++ (if vostfr_ms.subtitle_indices = [] then [] else ["-map", "0:s?"])
  ++ ["-map", "0:t?"]
  ++ ["-c:v", "copy"] ++ ["-c:s", "copy"]
  ++ (if use_temp_processed_audio then ["-c:a", "copy"] else ["-c:a", "copy"])
  ++ ["-metadata:s:a:0", "language=jpn",
      "-metadata:s:a:0", "title=VO (Japonais)",
      "-disposition:a:0", "default",
      "-metadata:s:a:1", "language=fra",
      "-metadata:s:a:1", "title=VF",
      "-disposition:a:1", "0"]
  ++ (match set_default_fr_sub_idx with
      | some si =>
        if vostfr_ms.subtitle_indices = [] then []
        else
          match vostfr_ms.subtitle_indices.findIdx? (· == si) with
          | some rel => ["-disposition:s:" ++ toString rel, "default"]
          | none => []
      | none => [])
  ++ [out_path]

end MuxMulti

/-! ### Audio preprocessing (processor.py lines 36-89, mux_multi.py lines 343-410) -/

/-- The constant `SPEEDFIX_ATEMPO` (models.py line 20). -/
def SPEEDFIX_ATEMPO : ℚ := 95904/100000

/-- One element of the `-af` filter chain, kept structured (the Python
code renders these to strings; the numeric payloads are what the claims
are about). -/
inductive FilterAtom where
  | atrim (startSec : ℚ)
  | asetpts
  | adelay (delaysMs : List Int)
  | atempo (factor : ℚ)
deriving DecidableEq, Repr

/-- Rendering of a filter atom into its ffmpeg string.  `toString` on `ℚ`
stands in for Python's float formatting; no claim inspects the rendered
decimal text. -/
def FilterAtom.render : FilterAtom → String
  | .atrim s => "atrim=start=" ++ toString s
  | .asetpts => "asetpts=PTS-STARTPTS"
  | .adelay ds => "adelay=" ++ joinParts "|" (ds.map toString)
  | .atempo f => "atempo=" ++ toString f

/-- The filter-chain construction of `preproc_audio_to_temp_flac`
(processor.py lines 54-66; identically `preproc_vf_audio_to_temp_flac`
with `build_adelay_filter`, mux_multi.py lines 343-347 and 372-386):
negative offset → `atrim` of `|offset|/1000` seconds plus
`asetpts=PTS-STARTPTS`; positive offset → one `adelay` entry per channel
(2 channels when the count is non-positive); optional trailing `atempo`. -/
def preproc_filters (offset_ms : Int) (apply_speedfix : Bool) (channels : Int) : List FilterAtom :=
  (if offset_ms < 0 then
     [.atrim (max 0 ((offset_ms.natAbs : ℚ) / 1000)), .asetpts]
   else if offset_ms > 0 then
     let ch := if channels ≤ 0 then 2 else channels
     [.adelay (List.replicate ch.toNat offset_ms)]
   else [])
  ++ (if apply_speedfix then [.atempo SPEEDFIX_ATEMPO] else [])

/-- The channel count handed to the preprocessor by both processors
(processor.py lines 110 and 216): the donor stream's channel count, 2 if
unknown. -/
def channelsArg (ms : MediaStreams) (idx : Nat) : Int :=
  (ms.audio_channels.lookup idx).getD 2

/-- Model of `Path.parent` for string paths. -/
def parentDir (p : String) : String :=
  joinParts "/" (splitOnChar '/' p).dropLast

/-- Join `dir / file` for string paths. -/
def joinPath (d f : String) : String := d ++ "/" ++ f

/-- Model of `Path.name`: the final path component. -/
def pathName (p : String) : String := (splitOnChar '/' p).getLastD p

/-- Model of `Path.stem`: file name without its last extension. -/
def pathStem (p : String) : String :=
  let f := pathName p
  match (splitOnChar '.' f).dropLast with
  | [] => f
  | parts => joinParts "." parts

/-- The ffmpeg extraction command of the audio preprocessors
(processor.py lines 70-84, mux_multi.py lines 391-405). -/
def preproc_cmd_core (input_path : String) (abs_stream_index : Nat) (temp_out : String)
    (offset_ms : Int) (apply_speedfix : Bool) (channels : Int) : List String :=
  let filters := preproc_filters offset_ms apply_speedfix channels
  ["ffmpeg", "-y", "-v", "error",
   "-i", input_path, "-map", "0:" ++ toString abs_stream_index, "-vn", "-sn"]
  ++ (if filters = [] then [] else ["-af", joinParts "," (filters.map FilterAtom.render)])
  ++ ["-c:a", "flac", temp_out]

/-! ### Effect model for the episode pipelines

The pipelines touch the outside world through ffprobe, `run_subprocess`,
`mkdir`, `unlink` and `copy2`.  An `Env` supplies the outcomes of those
calls and every performed effect is recorded in an `Effect` trace. -/

inductive Effect where
  | probe (path : String)
  | mkdirParents (path : String)
  | run (cmd : List String)
  | unlink (path : String)
  | copyFile (src dst : String)
deriving DecidableEq, Repr

def Effect.isProbe : Effect → Bool
  | .probe _ => true
  | _ => false

def Effect.isUnlink : Effect → Bool
  | .unlink _ => true
  | _ => false

def Effect.isRun : Effect → Bool
  | .run _ => true
  | _ => false

/-- Outcomes of the external calls made while processing one episode:
the two ffprobe answers (an `Except.error` models a raised
`RuntimeError`), whether the output / export paths already exist, the
exit code of each executed command, whether the temp artifact exists at
cleanup time, and whether `unlink` raises. -/
structure Env where
  probeBase : Except String MediaStreams
  probeDonor : Except String MediaStreams
  outExists : Bool
  exportExists : Bool
  runRc : List String → Int
  tmpExists : Bool
  unlinkFails : Bool

/-- Embedding of `run_subprocess` (ffutils.py lines 25-31): in dry-run mode the command
is only printed — exit code 0, nothing executed. -/
def run_subprocess (env : Env) (cmd : List String) (dry_run : Bool) : Int × List Effect :=
  if dry_run then (0, []) else (env.runRc cmd, [.run cmd])

/-- The `EpisodeJob` dataclass (models.py lines 35-54), with `Path` fields as strings. -/
structure EpisodeJob where
  key : String
  base_path : String
  donor_path : String
  out_path : String
  base_vo_jpn_idx : Option Nat := none
  donor_vo_jpn_idx : Option Nat := none
  base_fr_idx : Option Nat := none
  donor_fr_idx : Option Nat := none
  offset_ms : Int := 0
  apply_speedfix : Bool := false
  dry_run : Bool := false
  force : Bool := false
  no_speedfix : Bool := false
  export_vf_audio : Bool := false
  export_audio_dir : Option String := none
deriving DecidableEq, Repr

/-- The `JobResult` dataclass (models.py lines 57-71). -/
structure JobResult where
  key : String
  success : Bool
  message : String
  ffmpeg_mux_cmd : Option (List String) := none
  ffmpeg_preproc_cmd : Option (List String) := none
  chosen_fr_stream_index : Option Nat := none
  vo_jpn_stream_index : Option Nat := none
  speedfix_applied : Bool := false
  offset_applied_ms : Int := 0
  output_path : Option String := none
  export_audio_path : Option String := none
  ffmpeg_export_cmd : Option (List String) := none
deriving DecidableEq, Repr

/-- Embedding of `processor.preproc_audio_to_temp_flac` (processor.py lines 36-89):
returns `(exit code, temp path, command)` and the performed effects. -/
def preproc_audio_to_temp_flac (env : Env) (input_path : String) (abs_stream_index : Nat)
    (out_dir : String) (key : String) (offset_ms : Int) (apply_speedfix : Bool)
    (channels : Int) (dry_run : Bool) :
    (Int × Option String × List String) × List Effect :=
  let tmp_dir := joinPath out_dir ".temp_mux"
  let temp_out := joinPath tmp_dir (key ++ "_preproc.flac")
  let cmd := preproc_cmd_core input_path abs_stream_index temp_out offset_ms apply_speedfix channels
  let r := run_subprocess env cmd dry_run
  if r.1 ≠ 0 then ((r.1, none, cmd), .mkdirParents tmp_dir :: r.2)
  else ((0, some temp_out, cmd), .mkdirParents tmp_dir :: r.2)

/-- Embedding of `derive_export_audio_path` (processor.py lines 21-23). -/
def derive_export_audio_path (base_file export_dir : String) : String :=
  joinPath export_dir (pathStem base_file ++ ".VF.flac")

/-- The optional standalone VF-audio export of
`process_episode_vf_to_vostfr` (processor.py lines 157-184), given the
preprocessing outcome.  Returns `(export path, export command, effects)`. -/
def exportVfAudio (env : Env) (job : EpisodeJob) (fr_idx : Nat) (use_preproc : Bool)
    (tmp_audio_path : Option String) :
    Option String × Option (List String) × List Effect :=
  let export_dir := job.export_audio_dir.getD (parentDir job.out_path)
  let export_audio_path := derive_export_audio_path job.base_path export_dir
  if env.exportExists && !job.force then
    (some export_audio_path, none, [.mkdirParents export_dir])
  else
    match use_preproc, tmp_audio_path with
    | true, some tmp =>
      if !job.dry_run then
        (some export_audio_path, none,
         [.mkdirParents export_dir, .copyFile tmp export_audio_path])
      else
        (some export_audio_path, some ["copy", tmp, export_audio_path], [.mkdirParents export_dir])
    | _, _ =>
      let export_cmd := ["ffmpeg", "-y", "-v", "error",
        "-i", job.donor_path, "-map", "0:" ++ toString fr_idx, "-vn", "-sn",
        "-c:a", "flac", export_audio_path]
      let r := run_subprocess env export_cmd job.dry_run
      (some export_audio_path, some export_cmd, .mkdirParents export_dir :: r.2)

/-- Embedding of `processor.process_episode_vf_to_vostfr` (processor.py lines 92-194):
base = VOSTFR, donor = VF.  Note that no branch of the source deletes the
preprocessed temp artifact, and that `getattr(job, "force_audio_preproc",
False)` on line 115 always yields `False` because the `EpisodeJob`
dataclass declares no such field. -/
def process_episode_vf_to_vostfr (env : Env) (job : EpisodeJob) : JobResult × List Effect :=
  match env.probeBase with
  | .error e =>
    ({key := job.key, success := false, message := "Erreur: " ++ e}, [.probe job.base_path])
  | .ok vostfr_ms =>
  match env.probeDonor with
  | .error e =>
    ({key := job.key, success := false, message := "Erreur: " ++ e},
     [.probe job.base_path, .probe job.donor_path])
  | .ok vf_ms =>
  let t0 : List Effect := [.probe job.base_path, .probe job.donor_path]
  match find_first_jpn_audio_index vostfr_ms with
  | none =>
    ({key := job.key, success := false,
      message := "Aucune piste VO (JPN) dans VOSTFR: " ++ job.base_path}, t0)
  | some vo_jpn_idx =>
  match select_fr_audio_stream vf_ms with
  | none =>
    ({key := job.key, success := false,
      message := "Aucune piste FR dans VF: " ++ job.donor_path}, t0)
  | some fr_idx =>
  let will_speedfix := decide_speedfix vostfr_ms vf_ms job.no_speedfix
  let channels := channelsArg vf_ms fr_idx
  if env.outExists && !job.force then
    ({key := job.key, success := false,
      message := "Sortie existe déjà (utilisez --force): " ++ job.out_path}, t0)
  else
  let use_preproc := will_speedfix || job.offset_ms != 0
  let pre :=
    if use_preproc then
      some (preproc_audio_to_temp_flac env job.donor_path fr_idx (parentDir job.out_path)
        job.key job.offset_ms will_speedfix channels job.dry_run)
    else none
  match pre with
  | some ((rc, tmp?, pcmd), tr1) =>
    if rc ≠ 0 ∨ tmp? = none then
      ({key := job.key, success := false,
        message := "Echec prétraitement audio FR pour " ++ job.key,
        ffmpeg_preproc_cmd := some pcmd}, t0 ++ tr1)
    else
      finishMux env job vostfr_ms vf_ms vo_jpn_idx fr_idx will_speedfix use_preproc
        (tmp?.getD job.donor_path) tmp? (some pcmd) (t0 ++ tr1)
  | none =>
    finishMux env job vostfr_ms vf_ms vo_jpn_idx fr_idx will_speedfix use_preproc
      job.donor_path none none t0
where
  /-- The mux + optional-export tail of the function (processor.py lines
  135-191). -/
  finishMux (env : Env) (job : EpisodeJob) (vostfr_ms vf_ms : MediaStreams)
      (vo_jpn_idx fr_idx : Nat) (will_speedfix use_preproc : Bool)
      (donor_audio : String) (tmp_audio_path : Option String)
      (preproc_cmd : Option (List String)) (tr : List Effect) : JobResult × List Effect :=
    let mux_cmd := build_mux_command_vf_to_vostfr job.base_path donor_audio use_preproc
      vo_jpn_idx (if use_preproc then none else some fr_idx) vostfr_ms vf_ms job.out_path false
    let r := run_subprocess env mux_cmd job.dry_run
    let tr := tr ++ [.mkdirParents (parentDir job.out_path)] ++ r.2
    if r.1 ≠ 0 then
      ({key := job.key, success := false, message := "Echec mux pour " ++ job.key,
        ffmpeg_mux_cmd := some mux_cmd, ffmpeg_preproc_cmd := preproc_cmd,
        chosen_fr_stream_index := some fr_idx, vo_jpn_stream_index := some vo_jpn_idx,
        speedfix_applied := will_speedfix, offset_applied_ms := job.offset_ms}, tr)
    else
      let ex :=
        if job.export_vf_audio then exportVfAudio env job fr_idx use_preproc tmp_audio_path
        else (none, none, [])
      ({key := job.key, success := true, message := "OK: " ++ pathName job.out_path,
        ffmpeg_mux_cmd := some mux_cmd, ffmpeg_preproc_cmd := preproc_cmd,
        chosen_fr_stream_index := some fr_idx, vo_jpn_stream_index := some vo_jpn_idx,
        speedfix_applied := will_speedfix, offset_applied_ms := job.offset_ms,
        output_path := some job.out_path,
        export_audio_path := ex.1, ffmpeg_export_cmd := ex.2.1}, tr ++ ex.2.2)

/-- Embedding of `processor.process_episode_vostfr_to_vf` (processor.py lines 197-267):
base = VF, donor = VOSTFR.  As in the other direction, no branch deletes
the preprocessed temp artifact. -/
def process_episode_vostfr_to_vf (env : Env) (job : EpisodeJob) : JobResult × List Effect :=
  match env.probeBase with
  | .error e =>
    ({key := job.key, success := false, message := "Erreur: " ++ e}, [.probe job.base_path])
  | .ok vf_ms =>
  match env.probeDonor with
  | .error e =>
    ({key := job.key, success := false, message := "Erreur: " ++ e},
     [.probe job.base_path, .probe job.donor_path])
  | .ok vostfr_ms =>
  let t0 : List Effect := [.probe job.base_path, .probe job.donor_path]
  match find_first_jpn_audio_index vostfr_ms with
  | none =>
    ({key := job.key, success := false,
      message := "Aucune piste VO (JPN) dans VOSTFR: " ++ job.donor_path}, t0)
  | some vo_jpn_idx =>
  match select_fr_audio_stream vf_ms with
  | none =>
    ({key := job.key, success := false,
      message := "Aucune piste FR dans VF: " ++ job.base_path}, t0)
  | some fr_idx =>
  let will_speedfix := decide_speedfix vf_ms vostfr_ms job.no_speedfix
  let channels := channelsArg vostfr_ms vo_jpn_idx
  if env.outExists && !job.force then
    ({key := job.key, success := false,
      message := "Sortie existe déjà (utilisez --force): " ++ job.out_path}, t0)
  else
  let use_preproc := will_speedfix || job.offset_ms != 0
  let pre :=
    if use_preproc then
      some (preproc_audio_to_temp_flac env job.donor_path vo_jpn_idx (parentDir job.out_path)
        job.key job.offset_ms will_speedfix channels job.dry_run)
    else none
  match pre with
  | some ((rc, tmp?, pcmd), tr1) =>
    if rc ≠ 0 ∨ tmp? = none then
      ({key := job.key, success := false,
        message := "Echec prétraitement audio VO pour " ++ job.key,
        ffmpeg_preproc_cmd := some pcmd}, t0 ++ tr1)
    else
      finishMux env job vostfr_ms vo_jpn_idx fr_idx will_speedfix use_preproc
        (tmp?.getD job.donor_path) (some pcmd) (t0 ++ tr1)
  | none =>
    finishMux env job vostfr_ms vo_jpn_idx fr_idx will_speedfix use_preproc
      job.donor_path none t0
where
  /-- The mux tail of the function (processor.py lines 241-264). -/
  finishMux (env : Env) (job : EpisodeJob) (vostfr_ms : MediaStreams)
      (vo_jpn_idx fr_idx : Nat) (will_speedfix use_preproc : Bool)
      (donor_audio : String) (preproc_cmd : Option (List String)) (tr : List Effect) :
      JobResult × List Effect :=
    let mux_cmd := build_mux_command_vostfr_to_vf job.base_path donor_audio use_preproc
      (if use_preproc then none else some vo_jpn_idx) (some fr_idx) vostfr_ms job.out_path false
    let r := run_subprocess env mux_cmd job.dry_run
    let tr := tr ++ [.mkdirParents (parentDir job.out_path)] ++ r.2
    if r.1 ≠ 0 then
      ({key := job.key, success := false, message := "Echec mux pour " ++ job.key,
        ffmpeg_mux_cmd := some mux_cmd, ffmpeg_preproc_cmd := preproc_cmd,
        chosen_fr_stream_index := some fr_idx, vo_jpn_stream_index := some vo_jpn_idx,
        speedfix_applied := will_speedfix, offset_applied_ms := job.offset_ms}, tr)
    else
      ({key := job.key, success := true, message := "OK: " ++ pathName job.out_path,
        ffmpeg_mux_cmd := some mux_cmd, ffmpeg_preproc_cmd := preproc_cmd,
        chosen_fr_stream_index := some fr_idx, vo_jpn_stream_index := some vo_jpn_idx,
        speedfix_applied := will_speedfix, offset_applied_ms := job.offset_ms,
        output_path := some job.out_path}, tr)

namespace MuxMulti

/-- The `EpisodeJob` dataclass of the legacy script (mux_multi.py lines 64-74). -/
structure EpisodeJob where
  key : String
  vostfr_path : String
  vf_path : String
  out_path : String
  offset_ms : Int := 0
  apply_speedfix : Bool := false
  dry_run : Bool := false
  force : Bool := false
  no_speedfix : Bool := false
deriving DecidableEq, Repr

/-- The `JobResult` dataclass of the legacy script (mux_multi.py lines 77-88). -/
structure JobResult where
  key : String
  success : Bool
  message : String
  ffmpeg_mux_cmd : Option (List String) := none
  ffmpeg_preproc_cmd : Option (List String) := none
  chosen_fr_stream_index : Option Nat := none
  vo_jpn_stream_index : Option Nat := none
  speedfix_applied : Bool := false
  offset_applied_ms : Int := 0
  output_path : Option String := none
deriving DecidableEq, Repr

/-- Embedding of `mux_multi.preproc_vf_audio_to_temp_flac` (mux_multi.py lines
350-410); identical to the packaged preprocessor up to the temp file
name. -/
def preproc_vf_audio_to_temp_flac (env : Env) (vf_path : String) (fr_stream_index : Nat)
    (out_dir : String) (key : String) (offset_ms : Int) (apply_speedfix : Bool)
    (channels : Int) (dry_run : Bool) :
    (Int × Option String × List String) × List Effect :=
  let tmp_dir := joinPath out_dir ".temp_mux"
  let temp_out := joinPath tmp_dir (key ++ "_vf_preproc.flac")
  let cmd := preproc_cmd_core vf_path fr_stream_index temp_out offset_ms apply_speedfix channels
  let r := run_subprocess env cmd dry_run
  if r.1 ≠ 0 then ((r.1, none, cmd), .mkdirParents tmp_dir :: r.2)
  else ((0, some temp_out, cmd), .mkdirParents tmp_dir :: r.2)

/-- The best-effort temp cleanup of `mux_multi.process_episode`
(lines 598-603 and 615-620): the `unlink` is attempted when a temp was
produced, it still exists and the run is not a dry run; an `unlink`
failure (`Env.unlinkFails`) is swallowed by the `except Exception:
pass`. -/
def cleanupTemp (env : Env) (use_preproc : Bool) (tmp_audio_path : Option String)
    (dry_run : Bool) : List Effect :=
  match use_preproc, tmp_audio_path with
  | true, some tmp => if env.tmpExists && !dry_run then [.unlink tmp] else []
  | _, _ => []

/-- Embedding of `mux_multi.process_episode` (mux_multi.py lines 512-635). -/
def process_episode (env : Env) (job : EpisodeJob) : JobResult × List Effect :=
  match env.probeBase with
  | .error e =>
    ({key := job.key, success := false, message := "Erreur: " ++ e}, [.probe job.vostfr_path])
  | .ok vostfr_ms =>
  match env.probeDonor with
  | .error e =>
    ({key := job.key, success := false, message := "Erreur: " ++ e},
     [.probe job.vostfr_path, .probe job.vf_path])
  | .ok vf_ms =>
  let t0 : List Effect := [.probe job.vostfr_path, .probe job.vf_path]
  match find_first_jpn_audio_index vostfr_ms with
  | none =>
    ({key := job.key, success := false,
      message := "Aucune piste audio VO (JPN) détectée dans VOSTFR: " ++ job.vostfr_path}, t0)
  | some vo_jpn_idx =>
  match select_fr_audio_stream vf_ms with
  | none =>
    ({key := job.key, success := false,
      message := "Aucune piste audio FR détectée dans VF: " ++ job.vf_path}, t0)
  | some fr_idx =>
  let will_speedfix := decide_speedfix vostfr_ms vf_ms job.no_speedfix
  let offset_ms := job.offset_ms
  let channels := channelsArg vf_ms fr_idx
  if env.outExists && !job.force then
    ({key := job.key, success := false,
      message := "Sortie existe déjà (utiliser --force): " ++ job.out_path}, t0)
  else
  let use_preproc := will_speedfix || offset_ms != 0
  let pre :=
    if use_preproc then
      some (preproc_vf_audio_to_temp_flac env job.vf_path fr_idx (parentDir job.out_path)
        job.key offset_ms will_speedfix channels job.dry_run)
    else none
  match pre with
  | some ((rc, tmp?, pcmd), tr1) =>
    if rc ≠ 0 ∨ tmp? = none then
      ({key := job.key, success := false,
        message := "Echec prétraitement audio VF pour " ++ job.key ++ ".",
        ffmpeg_preproc_cmd := some pcmd}, t0 ++ tr1)
    else
      finishMux env job vostfr_ms vo_jpn_idx fr_idx will_speedfix offset_ms use_preproc
        (tmp?.getD job.vf_path) tmp? (some pcmd) (t0 ++ tr1)
  | none =>
    finishMux env job vostfr_ms vo_jpn_idx fr_idx will_speedfix offset_ms use_preproc
      job.vf_path none none t0
where
  /-- The mux + cleanup tail (mux_multi.py lines 579-632). -/
  finishMux (env : Env) (job : EpisodeJob) (vostfr_ms : MediaStreams)
      (vo_jpn_idx fr_idx : Nat) (will_speedfix : Bool) (offset_ms : Int) (use_preproc : Bool)
      (vf_audio_input : String) (tmp_audio_path : Option String)
      (preproc_cmd : Option (List String)) (tr : List Effect) : JobResult × List Effect :=
    let set_default_fr_sub_idx := first_fr_subtitle_index vostfr_ms
    let mux_cmd := build_mux_command job.vostfr_path vf_audio_input use_preproc
      vo_jpn_idx (if use_preproc then none else some fr_idx) vostfr_ms job.out_path
      set_default_fr_sub_idx
    let r := run_subprocess env mux_cmd job.dry_run
    let tr := tr ++ [.mkdirParents (parentDir job.out_path)] ++ r.2
    if r.1 ≠ 0 then
      ({key := job.key, success := false, message := "Echec mux pour " ++ job.key ++ ".",
        ffmpeg_mux_cmd := some mux_cmd, ffmpeg_preproc_cmd := preproc_cmd,
        chosen_fr_stream_index := some fr_idx, vo_jpn_stream_index := some vo_jpn_idx,
        speedfix_applied := will_speedfix, offset_applied_ms := offset_ms},
       tr ++ cleanupTemp env use_preproc tmp_audio_path job.dry_run)
    else
      ({key := job.key, success := true, message := "OK: " ++ pathName job.out_path,
        ffmpeg_mux_cmd := some mux_cmd, ffmpeg_preproc_cmd := preproc_cmd,
        chosen_fr_stream_index := some fr_idx, vo_jpn_stream_index := some vo_jpn_idx,
        speedfix_applied := will_speedfix, offset_applied_ms := offset_ms,
        output_path := some job.out_path},
       tr ++ cleanupTemp env use_preproc tmp_audio_path job.dry_run)

end MuxMulti

/-! ### `run_batch` job construction (processor.py lines 270-353, models.py
lines 35-54) -/

/-- Python-level errors that the shallow model distinguishes. -/
inductive PyError where
  | typeError
deriving DecidableEq, Repr

/-- The field names of the `EpisodeJob` dataclass (models.py lines 35-54),
i.e. the keyword parameters its generated `__init__` accepts. -/
def EpisodeJob_fields : List String :=
  ["key", "base_path", "donor_path", "out_path",
   "base_vo_jpn_idx", "donor_vo_jpn_idx", "base_fr_idx", "donor_fr_idx",
   "offset_ms", "apply_speedfix", "dry_run", "force", "no_speedfix",
   "export_vf_audio", "export_audio_dir"]

/-- The keyword-argument names `run_batch` passes when constructing an
`EpisodeJob` (processor.py lines 317-329). -/
def run_batch_EpisodeJob_kwargs : List String :=
  ["key", "base_path", "donor_path", "out_path", "offset_ms",
   "dry_run", "force", "no_speedfix", "export_vf_audio", "export_audio_dir",
   "force_audio_preproc"]

/-- A dataclass-generated `__init__` raises `TypeError` when called with a
keyword argument that is not a declared field. -/
def mkEpisodeJobKw (kwargs : List String) : Except PyError Unit :=
  if kwargs.all (fun k => EpisodeJob_fields.contains k) then .ok ()
  else .error .typeError

/-- The pairing and job-construction phase of `processor.run_batch`
(processor.py lines 295-329): return code 1 when no pair is found,
otherwise construct one `EpisodeJob` per pair (each construction passing
`run_batch_EpisodeJob_kwargs`) before anything is submitted to the worker
pool.  The submission and aggregation phase (lines 335-353) is modelled
by the final placeholder return, which the theorems show is unreachable
whenever at least one pair exists. -/
def run_batch (treeA treeB : List FileEntry) (relax_extract : Bool) : Except PyError Nat :=
  let pairs := build_pairs treeA treeB relax_extract
  if pairs = [] then .ok 1
  else do
    let _jobs ← pairs.mapM (fun _ => mkEpisodeJobKw run_batch_EpisodeJob_kwargs)
    .ok 0

/-! ### Claim C1 -/

/-- The construction of one `EpisodeJob` with the keyword arguments
`run_batch` passes raises `TypeError`: `force_audio_preproc` is not a
declared field. -/
theorem mkEpisodeJobKw_run_batch_fails :
    mkEpisodeJobKw run_batch_EpisodeJob_kwargs = .error .typeError := rfl

/-- C1: whenever the two scanned trees share at least one episode key
(`build_pairs` non-empty), `run_batch` raises `TypeError` while
constructing the first `EpisodeJob` — the `force_audio_preproc` keyword
is not a field of the `EpisodeJob` dataclass — so no episode is ever
submitted (the submission phase of `run_batch` is never reached). -/
theorem C1_run_batch_raises_typeerror (treeA treeB : List FileEntry) (relax : Bool)
    (h : build_pairs treeA treeB relax ≠ []) :
    run_batch treeA treeB relax = .error .typeError := by
  cases hp : build_pairs treeA treeB relax with
  | nil => exact absurd hp h
  | cons p rest =>
    simp only [run_batch, hp, if_neg (List.cons_ne_nil p rest)]
    rfl

/-- Witness for C1 at two one-file trees sharing key `E01`. -/
theorem C1_run_batch_raises_typeerror_witness :
    build_pairs [⟨[], "A.E01.mkv", some 0⟩] [⟨[], "B.E01.mkv", some 0⟩] false ≠ [] ∧
    run_batch [⟨[], "A.E01.mkv", some 0⟩] [⟨[], "B.E01.mkv", some 0⟩] false =
      .error .typeError :=
  ⟨by decide, C1_run_batch_raises_typeerror _ _ _ (by decide)⟩

/-! ### Claim C3 -/

/-- C3 counterexample: on `Show.SuperE07x.mkv` the relaxed mode does NOT
return `E07` — the relaxed pattern still requires a trailing word
boundary after the digits, and here `E07` is followed by `x`.  Both modes
return no key. -/
theorem C3_counterexample_relaxed_no_match :
    extract_episode_key "Show.SuperE07x.mkv" true = none ∧
    extract_episode_key "Show.SuperE07x.mkv" false = none := by
  constructor <;> decide

/-- C3 amended: strict mode requires word edges on both sides of
`E`+2-3 digits (`Show.E07.mkv` → `E07`); relaxed mode drops only the
leading edge, so `S01E01` matches in relaxed but not strict mode, while
`Show.SuperE07x.mkv` — whose `E07` lacks a trailing word edge — matches
in neither mode. -/
theorem C3_extract_episode_key_examples :
    extract_episode_key "Show.E07.mkv" false = some "E07" ∧
    extract_episode_key "Show.SuperE07x.mkv" false = none ∧
    extract_episode_key "Show.SuperE07x.mkv" true = none ∧
    extract_episode_key "Show.S01E01.mkv" false = none ∧
    extract_episode_key "Show.S01E01.mkv" true = some "E01" := by
  refine ⟨?_, ?_, ?_, ?_, ?_⟩ <;> decide

/-! ### Claim C8 -/

/-- C8: in the preprocessing filter chain, a positive `offset_ms` yields
an `adelay` whose per-channel delay list repeats `offset_ms` once per
donor channel (2 when the count is non-positive); a negative `offset_ms`
yields `atrim` of `|offset_ms|/1000` seconds followed by
`asetpts=PTS-STARTPTS`; a zero offset yields neither, leaving at most the
`atempo` speedfix; and a donor stream with no recorded channel count is
handed to the preprocessor as 2 channels. -/
theorem C8_preproc_filters_offset (offset_ms : Int) (sp : Bool) (channels : Int) :
    (0 < offset_ms →
      preproc_filters offset_ms sp channels =
        FilterAtom.adelay
            (List.replicate (if channels ≤ 0 then 2 else channels.toNat) offset_ms)
          :: (if sp then [FilterAtom.atempo SPEEDFIX_ATEMPO] else [])) ∧
    (offset_ms < 0 →
      preproc_filters offset_ms sp channels =
        FilterAtom.atrim ((offset_ms.natAbs : ℚ) / 1000) :: FilterAtom.asetpts
          :: (if sp then [FilterAtom.atempo SPEEDFIX_ATEMPO] else [])) ∧
    (offset_ms = 0 →
      preproc_filters offset_ms sp channels =
        (if sp then [FilterAtom.atempo SPEEDFIX_ATEMPO] else [])) ∧
    (∀ ms idx, (ms.audio_channels.lookup idx) = none → channelsArg ms idx = 2) := by
  refine ⟨?_, ?_, ?_, ?_⟩
  · intro hpos
    have hneg : ¬offset_ms < 0 := by omega
    by_cases hch : channels ≤ 0 <;>
      simp [preproc_filters, hneg, hpos, hch]
  · intro hneg
    have h0 : max 0 ((offset_ms.natAbs : ℚ) / 1000) = (offset_ms.natAbs : ℚ) / 1000 := by
      apply max_eq_right
      positivity
    simp [preproc_filters, hneg, h0]
  · intro h0
    simp [preproc_filters, h0]
  · intro ms idx h
    simp [channelsArg, h]

/-- Witness for C8 at the spec's example offsets `150`, `-150` and `0`
with a stereo donor. -/
theorem C8_preproc_filters_offset_witness :
    preproc_filters 150 false 2 = [FilterAtom.adelay [150, 150]] ∧
    preproc_filters (-150) false 2 =
      [FilterAtom.atrim (150/1000), FilterAtom.asetpts] ∧
    preproc_filters 0 true 2 = [FilterAtom.atempo SPEEDFIX_ATEMPO] ∧
    channelsArg ⟨[], [1], [], [], [(1, "fra")], [], [], none⟩ 1 = 2 := by
  refine ⟨?_, ?_, ?_, ?_⟩
  · have h := (C8_preproc_filters_offset 150 false 2).1 (by decide)
    simpa using h
  · have h := (C8_preproc_filters_offset (-150) false 2).2.1 (by decide)
    simpa using h
  · exact (C8_preproc_filters_offset 0 true 2).2.2.1 rfl
  · exact (C8_preproc_filters_offset 0 true 2).2.2.2 ⟨[], [1], [], [], [(1, "fra")], [], [], none⟩ 1 rfl

/-! ### Claim C2 -/

/-- C2 counterexample: at a base rate of exactly 23.956 fps — the left
endpoint of the spec's printed interval `[23.956, 23.996]` — with a PAL
donor and no override, `decide_speedfix` returns `false`: 23.956 is more
than 0.02 away from 24000/1001 ≈ 23.976024, so the code's interval is
`[24000/1001 - 0.02, 24000/1001 + 0.02]`, not `[23.956, 23.996]`. -/
theorem C2_counterexample_spec_interval :
    ((23956/1000 : ℚ) ∈ Set.Icc (23956/1000 : ℚ) (23996/1000)) ∧
    ((25 : ℚ) ∈ Set.Icc (2498/100 : ℚ) (2502/100)) ∧
    decide_speedfix ⟨[0], [], [], [], [], [], [], some (23956/1000)⟩
      ⟨[0], [], [], [], [], [], [], some 25⟩ false = false := by
  refine ⟨by constructor <;> norm_num, by constructor <;> norm_num, ?_⟩
  have hP : ¬(|(23956/1000 : ℚ) - FPS_VFR_TARGET| ≤ EPSILON_FPS) := by
    rw [FPS_VFR_TARGET, EPSILON_FPS, abs_le]
    intro h
    have h1 := h.1
    norm_num at h1
  simp [decide_speedfix, approx_equal, hP]

/-- C2 amended: `decide_speedfix base donor override` returns `true` iff
the override is unset, both frame rates are present, the base rate is
within 0.02 fps of 24000/1001 and the donor rate is within 0.02 fps of
25.0; it returns `false` in every other case (override set, either rate
missing, both PAL, both film-rate, any other mismatch). -/
theorem C2_decide_speedfix_iff (b d : MediaStreams) (ns : Bool) :
    decide_speedfix b d ns = true ↔
      ns = false ∧ ∃ bf df, b.fps = some bf ∧ d.fps = some df ∧
        |bf - 24000/1001| ≤ 2/100 ∧ |df - 25| ≤ 2/100 := by
  cases ns with
  | true => simp [decide_speedfix]
  | false =>
    cases hb : b.fps with
    | none => simp [decide_speedfix, hb]
    | some bf =>
      cases hd : d.fps with
      | none => simp [decide_speedfix, hb, hd]
      | some df =>
        simp [decide_speedfix, hb, hd, approx_equal, FPS_VFR_TARGET, FPS_PAL, EPSILON_FPS]

/-! ### Claim C4 -/

/-- C4 counterexample: in one tree, `d/a.E01.mkv` (depth 2, mtime 0) is
scanned before `d/x/b.E01.mkv` (depth 3, mtime 5).  The deeper file has a
newer mtime and displaces the shallower one, so the depth preference is
not absolute and the mtime tie-break is not restricted to equal depths. -/
theorem C4_counterexample_deeper_newer_wins :
    FileEntry.depth ⟨["d"], "a.E01.mkv", some 0⟩ <
      FileEntry.depth ⟨["d", "x"], "b.E01.mkv", some 5⟩ ∧
    scan_dir_for_keys [⟨["d"], "a.E01.mkv", some 0⟩, ⟨["d", "x"], "b.E01.mkv", some 5⟩] false =
      [("E01", ⟨["d", "x"], "b.E01.mkv", some 5⟩)] := by
  constructor <;> decide

/-- C4 amended: on a key collision the newly walked file replaces the
kept one iff it is at strictly shallower depth, or otherwise — at equal
OR greater depth — iff its modification time is strictly later (a failed
stat keeps the existing file).  In particular a deeper file with a newer
mtime does displace a shallower one. -/
theorem C4_scan_collision_rule (f1 f2 : FileEntry) (k : String) (relax : Bool)
    (h1e : mediaExtOk f1.name = true) (h1k : extract_episode_key f1.name relax = some k)
    (h2e : mediaExtOk f2.name = true) (h2k : extract_episode_key f2.name relax = some k) :
    scan_dir_for_keys [f1, f2] relax =
      [(k, if f1.depth > f2.depth then f2
           else match f2.mtime, f1.mtime with
                | some m2, some m1 => if m2 > m1 then f2 else f1
                | _, _ => f1)] := by
  simp only [scan_dir_for_keys, List.foldl_cons, List.foldl_nil]
  rw [show scanStep relax [] f1 = [(k, f1)] by simp [scanStep, h1e, h1k]]
  simp [scanStep, h2e, h2k, List.lookup, resolveDup]

/-- Witness for C4's amended rule at two concrete colliding files. -/
theorem C4_scan_collision_rule_witness :
    mediaExtOk "c.E02.mkv" = true ∧ extract_episode_key "c.E02.mkv" false = some "E02" ∧
    mediaExtOk "d.E02.mkv" = true ∧ extract_episode_key "d.E02.mkv" false = some "E02" ∧
    scan_dir_for_keys [⟨["r"], "c.E02.mkv", some 3⟩, ⟨["r", "s"], "d.E02.mkv", some 9⟩] false =
      [("E02", ⟨["r", "s"], "d.E02.mkv", some 9⟩)] := by
  refine ⟨by decide, by decide, by decide, by decide, ?_⟩
  have h := C4_scan_collision_rule ⟨["r"], "c.E02.mkv", some 3⟩ ⟨["r", "s"], "d.E02.mkv", some 9⟩
    "E02" false (by decide) (by decide) (by decide) (by decide)
  simpa using h

/-! ### Claim C5 -/

/-- A key is looked up successfully iff it is among the map's keys. -/
theorem lookup_isSome_iff {α : Type} (m : List (String × α)) (k : String) :
    (m.lookup k).isSome = true ↔ k ∈ m.map Prod.fst := by
  induction m with
  | nil => simp [List.lookup]
  | cons kv rest ih =>
    obtain ⟨k', v⟩ := kv
    simp only [List.lookup, List.map_cons, List.mem_cons]
    by_cases h : k = k'
    · subst h
      simp
    · have hbeq : (k == k') = false := by simp [h]
      simp [hbeq, ih, h]

/-- The in-place duplicate update of `scanStep` does not change the key
list. -/
theorem update_keys {α : Type} (m : List (String × α)) (k : String) (v : α) :
    (m.map (fun kv => if kv.1 = k then (k, v) else kv)).map Prod.fst = m.map Prod.fst := by
  induction m with
  | nil => rfl
  | cons kv rest ih =>
    by_cases h : kv.1 = k <;> simp [h, ih]

/-- The step `scanStep` preserves distinctness of the keys. -/
theorem scanStep_keys_nodup (relax : Bool) (m : List (String × FileEntry)) (e : FileEntry)
    (h : (m.map Prod.fst).Nodup) : ((scanStep relax m e).map Prod.fst).Nodup := by
  unfold scanStep
  by_cases he : mediaExtOk e.name
  · rw [if_pos he]
    cases hk : extract_episode_key e.name relax with
    | none => exact h
    | some key =>
      dsimp only
      cases hlk : List.lookup key m with
      | none =>
        have hnotmem : key ∉ m.map Prod.fst := by
          intro hmem
          rw [← lookup_isSome_iff, hlk] at hmem
          simp at hmem
        have hd : (m.map Prod.fst).Disjoint [key] := by
          simp only [List.disjoint_singleton]
          exact hnotmem
        have := List.Nodup.append h (List.nodup_singleton key) hd
        dsimp only
        simpa [List.map_append] using this
      | some existing =>
        dsimp only
        rw [update_keys]
        exact h
  · rw [if_neg he]
    exact h

/-- The keys produced by a directory scan are distinct (it is a `dict`). -/
theorem scan_keys_nodup (tree : List FileEntry) (relax : Bool) :
    ((scan_dir_for_keys tree relax).map Prod.fst).Nodup := by
  unfold scan_dir_for_keys
  suffices h : ∀ m : List (String × FileEntry), (m.map Prod.fst).Nodup →
      ((tree.foldl (scanStep relax) m).map Prod.fst).Nodup from h [] (by simp)
  induction tree with
  | nil => intro m hm; exact hm
  | cons e t ih =>
    intro m hm
    exact ih _ (scanStep_keys_nodup relax m e hm)

/-- Reading both maps back over a list of keys they both contain yields
exactly those keys. -/
theorem filterMap_pairs_keys (aMap bMap : List (String × FileEntry)) :
    ∀ ks : List String,
      (∀ k ∈ ks, (aMap.lookup k).isSome = true ∧ (bMap.lookup k).isSome = true) →
      (ks.filterMap (fun k =>
          match aMap.lookup k, bMap.lookup k with
          | some a, some b => some (k, a, b)
          | _, _ => none)).map (·.1) = ks := by
  intro ks
  induction ks with
  | nil => intro _; rfl
  | cons k ks ih =>
    intro h
    obtain ⟨ha, hb⟩ := h k (List.mem_cons_self k ks)
    obtain ⟨a, hA⟩ := Option.isSome_iff_exists.mp ha
    obtain ⟨b, hB⟩ := Option.isSome_iff_exists.mp hb
    simp only [List.filterMap_cons, hA, hB]
    simpa using ih (fun k2 hk2 => h k2 (List.mem_cons_of_mem _ hk2))

/-- C5: the keys of the `build_pairs` output are exactly the keys present
in both per-tree maps, they are listed in ascending `(length, key)`
order, and each appears once; a key present in only one tree never
appears. -/
theorem C5_build_pairs_intersection_sorted (treeA treeB : List FileEntry) (relax : Bool) :
    (∀ k, k ∈ (build_pairs treeA treeB relax).map (·.1) ↔
        ((scan_dir_for_keys treeA relax).lookup k).isSome = true ∧
        ((scan_dir_for_keys treeB relax).lookup k).isSome = true) ∧
    ((build_pairs treeA treeB relax).map (·.1)).Sorted keyLe ∧
    ((build_pairs treeA treeB relax).map (·.1)).Nodup := by
  have hmem0 : ∀ k ∈ (((scan_dir_for_keys treeA relax).map Prod.fst).filter
        (fun k => ((scan_dir_for_keys treeB relax).lookup k).isSome)).insertionSort keyLe,
      ((scan_dir_for_keys treeA relax).lookup k).isSome = true ∧
      ((scan_dir_for_keys treeB relax).lookup k).isSome = true := by
    intro k hk
    rw [List.mem_insertionSort, List.mem_filter] at hk
    exact ⟨(lookup_isSome_iff _ _).mpr hk.1, hk.2⟩
  have hmap : (build_pairs treeA treeB relax).map (·.1) =
      (((scan_dir_for_keys treeA relax).map Prod.fst).filter
        (fun k => ((scan_dir_for_keys treeB relax).lookup k).isSome)).insertionSort keyLe := by
    unfold build_pairs
    exact filterMap_pairs_keys _ _ _ hmem0
  refine ⟨?_, ?_, ?_⟩
  · intro k
    rw [hmap]
    constructor
    · intro hk
      exact hmem0 k hk
    · intro ⟨ha, hb⟩
      rw [List.mem_insertionSort, List.mem_filter]
      exact ⟨(lookup_isSome_iff _ _).mp ha, hb⟩
  · rw [hmap]
    exact List.sorted_insertionSort keyLe _
  · rw [hmap]
    exact (List.perm_insertionSort keyLe _).nodup_iff.mpr
      ((scan_keys_nodup treeA relax).filter _)

/-! ### Claim C6 -/

/-- Values assigned by a command to a flag: the elements that directly
follow each occurrence of `tok`. -/
def collectAfter (tok : String) : List String → List String
  | [] => []
  | a :: rest => (if a = tok then rest.take 1 else []) ++ collectAfter tok rest

theorem collectAfter_eq_nil {tok : String} {l : List String} (h : tok ∉ l) :
    collectAfter tok l = [] := by
  induction l with
  | nil => rfl
  | cons a rest ih =>
    have ha : ¬(a = tok) := fun he => h (he ▸ List.mem_cons_self a rest)
    simp only [collectAfter, if_neg ha, List.nil_append]
    exact ih (fun hm => h (List.mem_cons_of_mem a hm))

theorem collectAfter_append_not_mem {tok : String} {l1 : List String} (l2 : List String)
    (h : tok ∉ l1) : collectAfter tok (l1 ++ l2) = collectAfter tok l2 := by
  induction l1 with
  | nil => rfl
  | cons a rest ih =>
    have ha : ¬(a = tok) := fun he => h (he ▸ List.mem_cons_self a rest)
    simp only [List.cons_append, collectAfter, if_neg ha, List.nil_append]
    exact ih (fun hm => h (List.mem_cons_of_mem a hm))

/-- Two strings differing at some character position are different. -/
theorem ne_of_char_at {e t : String} (i : Nat) (c d : Char) (he : e.data[i]? = some c)
    (ht : t.data[i]? = some d) (hcd : c ≠ d) : e ≠ t := by
  intro h
  rw [h, ht] at he
  exact hcd (Option.some.inj he).symm

/-- A character of the left part survives an append. -/
theorem charAt_append (p x : String) (i : Nat) (c : Char) (hp : p.data[i]? = some c) :
    (p ++ x).data[i]? = some c := by
  have hlen : i < p.data.length := by
    rcases List.getElem?_eq_some.mp hp with ⟨h, _⟩
    exact h
  rw [String.data_append, List.getElem?_append_left hlen]
  exact hp

/-- The two audio-disposition flag tokens of the builders. -/
def isDispTok (t : String) : Prop :=
  t = "-disposition:a:0" ∨ t = "-disposition:a:1"

theorem dispTok_head {t : String} (ht : isDispTok t) : t.data[0]? = some '-' := by
  rcases ht with rfl | rfl <;> decide

theorem dispTok_at13 {t : String} (ht : isDispTok t) : t.data[13]? = some 'a' := by
  rcases ht with rfl | rfl <;> decide

theorem dispTok_ne_inp0a {t : String} (ht : isDispTok t) (x : String) :
    t ≠ (toString (0:Nat) ++ ":a:") ++ x :=
  (ne_of_char_at 0 '0' '-'
    (charAt_append _ x 0 '0' (charAt_append _ ":a:" 0 '0' (by decide)))
    (dispTok_head ht) (by decide)).symm

theorem dispTok_ne_inp0c {t : String} (ht : isDispTok t) (x : String) :
    t ≠ (toString (0:Nat) ++ ":") ++ x :=
  (ne_of_char_at 0 '0' '-'
    (charAt_append _ x 0 '0' (charAt_append _ ":" 0 '0' (by decide)))
    (dispTok_head ht) (by decide)).symm

theorem dispTok_ne_inp1a {t : String} (ht : isDispTok t) (x : String) :
    t ≠ (toString (1:Nat) ++ ":a:") ++ x :=
  (ne_of_char_at 0 '1' '-'
    (charAt_append _ x 0 '1' (charAt_append _ ":a:" 0 '1' (by decide)))
    (dispTok_head ht) (by decide)).symm

theorem dispTok_ne_inp1c {t : String} (ht : isDispTok t) (x : String) :
    t ≠ (toString (1:Nat) ++ ":") ++ x :=
  (ne_of_char_at 0 '1' '-'
    (charAt_append _ x 0 '1' (charAt_append _ ":" 0 '1' (by decide)))
    (dispTok_head ht) (by decide)).symm

theorem dispTok_ne_zeroColon {t : String} (ht : isDispTok t) (x : String) :
    t ≠ "0:" ++ x :=
  (ne_of_char_at 0 '0' '-' (charAt_append _ x 0 '0' (by decide))
    (dispTok_head ht) (by decide)).symm

theorem dispTok_ne_subDisp {t : String} (ht : isDispTok t) (x : String) :
    t ≠ "-disposition:s:" ++ x :=
  (ne_of_char_at 13 's' 'a' (charAt_append _ x 13 's' (by decide))
    (dispTok_at13 ht) (by decide)).symm

theorem dispTok_not_mem_mapAudioRel {t : String} (ht : isDispTok t) (inp : Nat)
    (hinp : inp = 0 ∨ inp = 1) (ms : MediaStreams) (idx : Nat) :
    t ∉ mapAudioRel inp ms idx := by
  unfold mapAudioRel
  cases ms.audio_indices.findIdx? (· == idx) with
  | some rel =>
    intro hm
    rcases List.mem_cons.mp hm with he | hm2
    · rcases ht with rfl | rfl <;> exact absurd he (by decide)
    · rcases List.mem_cons.mp hm2 with he | hm3
      · rcases hinp with rfl | rfl
        · exact dispTok_ne_inp0a ht _ he
        · exact dispTok_ne_inp1a ht _ he
      · exact absurd hm3 (List.not_mem_nil t)
  | none =>
    intro hm
    rcases List.mem_cons.mp hm with he | hm2
    · rcases ht with rfl | rfl <;> exact absurd he (by decide)
    · rcases List.mem_cons.mp hm2 with he | hm3
      · rcases hinp with rfl | rfl
        · exact dispTok_ne_inp0c ht _ he
        · exact dispTok_ne_inp1c ht _ he
      · exact absurd hm3 (List.not_mem_nil t)

theorem dispTok_not_mem_mapVfAudio {t : String} (ht : isDispTok t) (u : Bool)
    (fr : Option Nat) (ms : MediaStreams) : t ∉ mapVfAudio u fr ms := by
  unfold mapVfAudio
  cases u with
  | true => rcases ht with rfl | rfl <;> simp
  | false =>
    cases fr with
    | some i => exact dispTok_not_mem_mapAudioRel ht 1 (Or.inr rfl) ms i
    | none => rcases ht with rfl | rfl <;> simp

theorem dispTok_not_mem_mapFrAbs {t : String} (ht : isDispTok t) (fr : Option Nat) :
    t ∉ mapFrAbs fr := by
  unfold mapFrAbs
  cases fr with
  | some i =>
    intro hm
    rcases List.mem_cons.mp hm with he | hm2
    · rcases ht with rfl | rfl <;> exact absurd he (by decide)
    · rcases List.mem_cons.mp hm2 with he | hm3
      · exact dispTok_ne_zeroColon ht _ he
      · exact absurd hm3 (List.not_mem_nil t)
  | none => rcases ht with rfl | rfl <;> decide

theorem dispTok_not_mem_mapVoDonor {t : String} (ht : isDispTok t) (u : Bool)
    (vo : Option Nat) (ms : MediaStreams) : t ∉ mapVoDonor u vo ms := by
  unfold mapVoDonor
  cases u with
  | true => rcases ht with rfl | rfl <;> simp
  | false =>
    cases vo with
    | some i => exact dispTok_not_mem_mapAudioRel ht 1 (Or.inr rfl) ms i
    | none => rcases ht with rfl | rfl <;> simp

theorem dispTok_not_mem_codecChunk {t : String} (ht : isDispTok t) (u dv : Bool) :
    t ∉ codecChunk u dv := by
  unfold codecChunk
  cases u <;> cases dv <;> rcases ht with rfl | rfl <;> decide

theorem dispTok_not_mem_subDispChunk {t : String} (ht : isDispTok t) (ms : MediaStreams) :
    t ∉ subDispChunk ms := by
  unfold subDispChunk
  cases first_fr_subtitle_index ms with
  | none => exact List.not_mem_nil t
  | some si =>
    dsimp only
    by_cases hs : ms.subtitle_indices = []
    · rw [if_pos hs]
      exact List.not_mem_nil t
    · rw [if_neg hs]
      cases ms.subtitle_indices.findIdx? (· == si) with
      | some rel =>
        intro hm
        rcases List.mem_cons.mp hm with he | hm2
        · exact dispTok_ne_subDisp ht _ he
        · rcases List.mem_cons.mp hm2 with he | hm3
          · rcases ht with rfl | rfl <;> exact absurd he (by decide)
          · exact absurd hm3 (List.not_mem_nil t)
      | none => exact List.not_mem_nil t

/-- Scanning with `collectAfter` through the shared metadata/disposition block: exactly
one `-disposition:a:0 default` and one `-disposition:a:1 0`. -/
theorem collectAfter_metaDisp (dv : Bool) (post : List String)
    (h0 : "-disposition:a:0" ∉ post) (h1 : "-disposition:a:1" ∉ post) :
    collectAfter "-disposition:a:0" (metaDispChunk dv ++ post) = ["default"] ∧
    collectAfter "-disposition:a:1" (metaDispChunk dv ++ post) = ["0"] := by
  cases dv <;>
    exact ⟨by simp [metaDispChunk, collectAfter, collectAfter_eq_nil h0],
           by simp [metaDispChunk, collectAfter, collectAfter_eq_nil h1]⟩

theorem dispTok_ne_of_not {t p : String} (ht : isDispTok t) (hp : ¬ isDispTok p) : t ≠ p :=
  fun he => hp (he ▸ ht)

/-- Scanning `build_mux_command_vf_to_vostfr` for an audio-disposition
token reduces to scanning its metadata/disposition tail. -/
theorem collect_build_vf (t : String) (ht : isDispTok t)
    (p1 p2 out : String) (u dv : Bool) (vo : Nat) (fr : Option Nat) (ms1 ms2 : MediaStreams)
    (hp1 : ¬ isDispTok p1) (hp2 : ¬ isDispTok p2) :
    collectAfter t (build_mux_command_vf_to_vostfr p1 p2 u vo fr ms1 ms2 out dv) =
      collectAfter t (metaDispChunk dv ++ (subDispChunk ms1 ++ [out])) := by
  have hne1 : t ≠ p1 := dispTok_ne_of_not ht hp1
  have hne2 : t ≠ p2 := dispTok_ne_of_not ht hp2
  have hA : t ∉ ["ffmpeg", "-y", "-v", "error", "-i", p1, "-i", p2, "-map_chapters", "0"] := by
    rcases ht with rfl | rfl <;> simp [hne1, hne2]
  have hB : t ∉ ["-map", "0:v:0"] := by
    rcases ht with rfl | rfl <;> decide
  have hC : t ∉ (if dv then mapVfAudio u fr ms2 ++ mapAudioRel 0 ms1 vo
      else mapAudioRel 0 ms1 vo ++ mapVfAudio u fr ms2) := by
    have h1 := dispTok_not_mem_mapVfAudio ht u fr ms2
    have h2 := dispTok_not_mem_mapAudioRel ht 0 (Or.inl rfl) ms1 vo
    cases dv <;> simp [List.mem_append, h1, h2]
  have hD : t ∉ (if ms1.subtitle_indices = [] then [] else ["-map", "0:s?"]) := by
    by_cases hs : ms1.subtitle_indices = [] <;> rcases ht with rfl | rfl <;> simp [hs]
  have hE : t ∉ ["-map", "0:t?"] := by
    rcases ht with rfl | rfl <;> decide
  have hF := dispTok_not_mem_codecChunk ht u dv
  unfold build_mux_command_vf_to_vostfr
  simp only [List.append_assoc]
  rw [collectAfter_append_not_mem _ hA, collectAfter_append_not_mem _ hB,
      collectAfter_append_not_mem _ hC, collectAfter_append_not_mem _ hD,
      collectAfter_append_not_mem _ hE, collectAfter_append_not_mem _ hF]

/-- Same reduction for `build_mux_command_vostfr_to_vf`. -/
theorem collect_build_vtv (t : String) (ht : isDispTok t)
    (p1 p2 out : String) (u dv : Bool) (vo fr : Option Nat) (ms : MediaStreams)
    (hp1 : ¬ isDispTok p1) (hp2 : ¬ isDispTok p2) :
    collectAfter t (build_mux_command_vostfr_to_vf p1 p2 u vo fr ms out dv) =
      collectAfter t (metaDispChunk dv ++ (subDispChunk ms ++ [out])) := by
  have hne1 : t ≠ p1 := dispTok_ne_of_not ht hp1
  have hne2 : t ≠ p2 := dispTok_ne_of_not ht hp2
  have hA : t ∉ ["ffmpeg", "-y", "-v", "error", "-i", p1, "-i", p2, "-map_chapters", "0"] := by
    rcases ht with rfl | rfl <;> simp [hne1, hne2]
  have hB : t ∉ ["-map", "0:v:0"] := by
    rcases ht with rfl | rfl <;> decide
  have hC : t ∉ (if dv then mapFrAbs fr ++ mapVoDonor u vo ms
      else mapVoDonor u vo ms ++ mapFrAbs fr) := by
    have h1 := dispTok_not_mem_mapFrAbs ht fr
    have h2 := dispTok_not_mem_mapVoDonor ht u vo ms
    cases dv <;> simp [List.mem_append, h1, h2]
  have hD : t ∉ (if ms.subtitle_indices = [] then [] else ["-map", "1:s?"]) := by
    by_cases hs : ms.subtitle_indices = [] <;> rcases ht with rfl | rfl <;> simp [hs]
  have hE : t ∉ ["-map", "1:t?"] := by
    rcases ht with rfl | rfl <;> decide
  have hF := dispTok_not_mem_codecChunk ht u dv
  unfold build_mux_command_vostfr_to_vf
  simp only [List.append_assoc]
  rw [collectAfter_append_not_mem _ hA, collectAfter_append_not_mem _ hB,
      collectAfter_append_not_mem _ hC, collectAfter_append_not_mem _ hD,
      collectAfter_append_not_mem _ hE, collectAfter_append_not_mem _ hF]

theorem dispTok_not_mem_tail {t : String} (ht : isDispTok t) (ms : MediaStreams)
    (out : String) (hout : ¬ isDispTok out) : t ∉ subDispChunk ms ++ [out] := by
  intro hm
  rcases List.mem_append.mp hm with h | h
  · exact dispTok_not_mem_subDispChunk ht ms h
  · rw [List.mem_singleton] at h
    exact hout (h ▸ ht)

/-- C6: for every input — both directional builders, both default-track
selections, with or without preprocessed audio — the built command
assigns the `default` disposition to audio track 0 exactly once and
explicitly assigns disposition `0` to audio track 1 exactly once: exactly
one of the two planned audio tracks is default and the other is
explicitly cleared, never both and never neither.  (Which language sits
at position 0 is decided by the `default_vf` selector.) -/
theorem C6_exactly_one_default_audio
    (vostfr_path vf_audio out1 vf_path vostfr_audio out2 : String)
    (use_temp1 default_vf1 use_temp2 default_vf2 : Bool)
    (vo_idx1 : Nat) (fr_idx1 vo_idx2 fr_idx2 : Option Nat)
    (vostfr_ms1 vf_ms1 vostfr_ms2 : MediaStreams)
    (h1 : ¬ isDispTok vostfr_path) (h2 : ¬ isDispTok vf_audio) (h3 : ¬ isDispTok out1)
    (h4 : ¬ isDispTok vf_path) (h5 : ¬ isDispTok vostfr_audio) (h6 : ¬ isDispTok out2) :
    (collectAfter "-disposition:a:0"
        (build_mux_command_vf_to_vostfr vostfr_path vf_audio use_temp1 vo_idx1 fr_idx1
          vostfr_ms1 vf_ms1 out1 default_vf1) = ["default"] ∧
      collectAfter "-disposition:a:1"
        (build_mux_command_vf_to_vostfr vostfr_path vf_audio use_temp1 vo_idx1 fr_idx1
          vostfr_ms1 vf_ms1 out1 default_vf1) = ["0"]) ∧
    (collectAfter "-disposition:a:0"
        (build_mux_command_vostfr_to_vf vf_path vostfr_audio use_temp2 vo_idx2 fr_idx2
          vostfr_ms2 out2 default_vf2) = ["default"] ∧
      collectAfter "-disposition:a:1"
        (build_mux_command_vostfr_to_vf vf_path vostfr_audio use_temp2 vo_idx2 fr_idx2
          vostfr_ms2 out2 default_vf2) = ["0"]) := by
  have hm1 := collectAfter_metaDisp default_vf1 (subDispChunk vostfr_ms1 ++ [out1])
    (dispTok_not_mem_tail (Or.inl rfl) vostfr_ms1 out1 h3)
    (dispTok_not_mem_tail (Or.inr rfl) vostfr_ms1 out1 h3)
  have hm2 := collectAfter_metaDisp default_vf2 (subDispChunk vostfr_ms2 ++ [out2])
    (dispTok_not_mem_tail (Or.inl rfl) vostfr_ms2 out2 h6)
    (dispTok_not_mem_tail (Or.inr rfl) vostfr_ms2 out2 h6)
  refine ⟨⟨?_, ?_⟩, ?_, ?_⟩
  · rw [collect_build_vf _ (Or.inl rfl) _ _ _ _ _ _ _ _ _ h1 h2]
    exact hm1.1
  · rw [collect_build_vf _ (Or.inr rfl) _ _ _ _ _ _ _ _ _ h1 h2]
    exact hm1.2
  · rw [collect_build_vtv _ (Or.inl rfl) _ _ _ _ _ _ _ _ h4 h5]
    exact hm2.1
  · rw [collect_build_vtv _ (Or.inr rfl) _ _ _ _ _ _ _ _ h4 h5]
    exact hm2.2

/-- Witness for C6 at concrete inputs (temp-preprocessed donor on one
side, raw donor on the other, both default selections exercised). -/
theorem C6_exactly_one_default_audio_witness :
    (collectAfter "-disposition:a:0"
        (build_mux_command_vf_to_vostfr "v.mkv" "tmp.flac" true 1 none
          ⟨[0], [1], [2], [], [(1, "jpn")], [(2, "fra")], [], none⟩
          ⟨[], [0], [], [], [(0, "fra")], [], [], none⟩ "out.mkv" false) = ["default"] ∧
      collectAfter "-disposition:a:1"
        (build_mux_command_vf_to_vostfr "v.mkv" "tmp.flac" true 1 none
          ⟨[0], [1], [2], [], [(1, "jpn")], [(2, "fra")], [], none⟩
          ⟨[], [0], [], [], [(0, "fra")], [], [], none⟩ "out.mkv" false) = ["0"]) ∧
    (collectAfter "-disposition:a:0"
        (build_mux_command_vostfr_to_vf "vf.mkv" "vostfr.mkv" false (some 1) (some 1)
          ⟨[0], [1], [2], [], [(1, "jpn")], [(2, "fra")], [], none⟩ "out2.mkv" true) = ["default"] ∧
      collectAfter "-disposition:a:1"
        (build_mux_command_vostfr_to_vf "vf.mkv" "vostfr.mkv" false (some 1) (some 1)
          ⟨[0], [1], [2], [], [(1, "jpn")], [(2, "fra")], [], none⟩ "out2.mkv" true) = ["0"]) :=
  C6_exactly_one_default_audio "v.mkv" "tmp.flac" "out.mkv" "vf.mkv" "vostfr.mkv" "out2.mkv"
    true false false true 1 none (some 1) (some 1)
    ⟨[0], [1], [2], [], [(1, "jpn")], [(2, "fra")], [], none⟩
    ⟨[], [0], [], [], [(0, "fra")], [], [], none⟩
    ⟨[0], [1], [2], [], [(1, "jpn")], [(2, "fra")], [], none⟩
    (by simp [isDispTok]) (by simp [isDispTok]) (by simp [isDispTok])
    (by simp [isDispTok]) (by simp [isDispTok]) (by simp [isDispTok])

/-! ### Claims C9 and C10: trace properties of the episode pipelines -/

/-- No deletion occurs in the trace. -/
def noUnlink (l : List Effect) : Bool := l.all (fun a => !a.isUnlink)

theorem noUnlink_append {l1 l2 : List Effect} (h1 : noUnlink l1 = true)
    (h2 : noUnlink l2 = true) : noUnlink (l1 ++ l2) = true := by
  unfold noUnlink at *
  rw [List.all_append, h1, h2]
  rfl

theorem noUnlink_runsub (env : Env) (cmd : List String) (d : Bool) :
    noUnlink (run_subprocess env cmd d).2 = true := by
  unfold run_subprocess
  by_cases hd : d <;> simp [hd, noUnlink, Effect.isUnlink]

theorem noUnlink_cons_mkdir {p : String} {l : List Effect} (h : noUnlink l = true) :
    noUnlink (Effect.mkdirParents p :: l) = true := by
  unfold noUnlink at *
  rw [List.all_cons, h]
  rfl

theorem noUnlink_preproc (env : Env) (input_path : String) (idx : Nat) (out_dir key : String)
    (off : Int) (sp : Bool) (ch : Int) (d : Bool) :
    noUnlink (preproc_audio_to_temp_flac env input_path idx out_dir key off sp ch d).2 = true := by
  unfold preproc_audio_to_temp_flac
  dsimp only
  split <;>
    exact noUnlink_cons_mkdir (noUnlink_runsub env _ d)

theorem noUnlink_export (env : Env) (job : EpisodeJob) (fr : Nat) (u : Bool)
    (tmp : Option String) : noUnlink (exportVfAudio env job fr u tmp).2.2 = true := by
  unfold exportVfAudio
  dsimp only
  by_cases he : (env.exportExists && !job.force) = true
  · rw [if_pos he]
    simp [noUnlink, Effect.isUnlink]
  · rw [if_neg he]
    cases u with
    | false =>
      dsimp only
      exact noUnlink_cons_mkdir (noUnlink_runsub env _ job.dry_run)
    | true =>
      cases tmp with
      | none =>
        dsimp only
        exact noUnlink_cons_mkdir (noUnlink_runsub env _ job.dry_run)
      | some t =>
        dsimp only
        by_cases hd : job.dry_run = false <;>
          simp [hd, noUnlink, Effect.isUnlink]

theorem noUnlink_finishMux_vf (env : Env) (job : EpisodeJob) (ms1 ms2 : MediaStreams)
    (vo fr : Nat) (sp u : Bool) (da : String) (tmp : Option String)
    (pc : Option (List String)) (tr : List Effect) (htr : noUnlink tr = true) :
    noUnlink (process_episode_vf_to_vostfr.finishMux env job ms1 ms2 vo fr sp u da tmp pc tr).2
      = true := by
  unfold process_episode_vf_to_vostfr.finishMux
  dsimp only
  generalize (if u = true then none else (some fr : Option Nat)) = fopt
  have hrun := noUnlink_runsub env (build_mux_command_vf_to_vostfr job.base_path da u vo
    fopt ms1 ms2 job.out_path false) job.dry_run
  have hmk : noUnlink [Effect.mkdirParents (parentDir job.out_path)] = true := rfl
  have hbase := noUnlink_append (noUnlink_append htr hmk) hrun
  split
  · exact hbase
  · by_cases hexp : job.export_vf_audio = true
    · rw [if_pos hexp]
      exact noUnlink_append hbase (noUnlink_export env job fr u tmp)
    · rw [if_neg hexp]
      exact noUnlink_append hbase rfl

theorem noUnlink_finishMux_vtv (env : Env) (job : EpisodeJob) (ms : MediaStreams)
    (vo fr : Nat) (sp u : Bool) (da : String) (pc : Option (List String))
    (tr : List Effect) (htr : noUnlink tr = true) :
    noUnlink (process_episode_vostfr_to_vf.finishMux env job ms vo fr sp u da pc tr).2 = true := by
  unfold process_episode_vostfr_to_vf.finishMux
  dsimp only
  generalize (if u = true then none else (some vo : Option Nat)) = vopt
  have hrun := noUnlink_runsub env (build_mux_command_vostfr_to_vf job.base_path da u
    vopt (some fr) ms job.out_path false) job.dry_run
  have hmk : noUnlink [Effect.mkdirParents (parentDir job.out_path)] = true := rfl
  have hbase := noUnlink_append (noUnlink_append htr hmk) hrun
  split <;> exact hbase

/-- No branch of the packaged `process_episode_vf_to_vostfr` ever deletes
a file. -/
theorem vf_to_vostfr_never_unlinks (env : Env) (job : EpisodeJob) :
    noUnlink (process_episode_vf_to_vostfr env job).2 = true := by
  unfold process_episode_vf_to_vostfr
  cases env.probeBase with
  | error e => rfl
  | ok ms1 =>
    cases env.probeDonor with
    | error e => rfl
    | ok ms2 =>
      dsimp only
      cases find_first_jpn_audio_index ms1 with
      | none => rfl
      | some vo =>
        dsimp only
        cases select_fr_audio_stream ms2 with
        | none => rfl
        | some fr =>
          dsimp only
          by_cases hex : (env.outExists && !job.force) = true
          · rw [if_pos hex]
            rfl
          · rw [if_neg hex]
            by_cases hu : (decide_speedfix ms1 ms2 job.no_speedfix || job.offset_ms != 0) = true
            · rw [if_pos hu]
              dsimp only
              split
              · exact noUnlink_append rfl (noUnlink_preproc env job.donor_path fr
                  (parentDir job.out_path) job.key job.offset_ms
                  (decide_speedfix ms1 ms2 job.no_speedfix) (channelsArg ms2 fr) job.dry_run)
              · exact noUnlink_finishMux_vf env job ms1 ms2 vo fr _ _ _ _ _ _
                  (noUnlink_append rfl (noUnlink_preproc env job.donor_path fr
                    (parentDir job.out_path) job.key job.offset_ms
                    (decide_speedfix ms1 ms2 job.no_speedfix) (channelsArg ms2 fr) job.dry_run))
            · rw [if_neg hu]
              exact noUnlink_finishMux_vf env job ms1 ms2 vo fr _ _ _ _ _ _ rfl

/-- No branch of the packaged `process_episode_vostfr_to_vf` ever deletes
a file. -/
theorem vostfr_to_vf_never_unlinks (env : Env) (job : EpisodeJob) :
    noUnlink (process_episode_vostfr_to_vf env job).2 = true := by
  unfold process_episode_vostfr_to_vf
  cases env.probeBase with
  | error e => rfl
  | ok ms1 =>
    cases env.probeDonor with
    | error e => rfl
    | ok ms2 =>
      dsimp only
      cases find_first_jpn_audio_index ms2 with
      | none => rfl
      | some vo =>
        dsimp only
        cases select_fr_audio_stream ms1 with
        | none => rfl
        | some fr =>
          dsimp only
          by_cases hex : (env.outExists && !job.force) = true
          · rw [if_pos hex]
            rfl
          · rw [if_neg hex]
            by_cases hu : (decide_speedfix ms1 ms2 job.no_speedfix || job.offset_ms != 0) = true
            · rw [if_pos hu]
              dsimp only
              split
              · exact noUnlink_append rfl (noUnlink_preproc env job.donor_path vo
                  (parentDir job.out_path) job.key job.offset_ms
                  (decide_speedfix ms1 ms2 job.no_speedfix) (channelsArg ms2 vo) job.dry_run)
              · exact noUnlink_finishMux_vtv env job ms2 vo fr _ _ _ _ _
                  (noUnlink_append rfl (noUnlink_preproc env job.donor_path vo
                    (parentDir job.out_path) job.key job.offset_ms
                    (decide_speedfix ms1 ms2 job.no_speedfix) (channelsArg ms2 vo) job.dry_run))
            · rw [if_neg hu]
              exact noUnlink_finishMux_vtv env job ms2 vo fr _ _ _ _ _ rfl

/-- In the legacy `mux_multi.process_episode`, whenever preprocessing ran
(here: a non-zero offset) and succeeded, the temp artifact's `unlink` is
attempted after the mux — after a successful mux and equally after a
failed one. -/
theorem muxmulti_cleanup_attempted (env : Env) (job : MuxMulti.EpisodeJob)
    (ms1 ms2 : MediaStreams) (vo fr : Nat)
    (hp1 : env.probeBase = .ok ms1) (hp2 : env.probeDonor = .ok ms2)
    (hjpn : find_first_jpn_audio_index ms1 = some vo)
    (hfr : select_fr_audio_stream ms2 = some fr)
    (hout : env.outExists = false)
    (hoff : (job.offset_ms != 0) = true)
    (htmp : env.tmpExists = true) (hdry : job.dry_run = false)
    (hpre : env.runRc (preproc_cmd_core job.vf_path fr
        (joinPath (joinPath (parentDir job.out_path) ".temp_mux")
          (job.key ++ "_vf_preproc.flac"))
        job.offset_ms (decide_speedfix ms1 ms2 job.no_speedfix) (channelsArg ms2 fr)) = 0) :
    Effect.unlink (joinPath (joinPath (parentDir job.out_path) ".temp_mux")
        (job.key ++ "_vf_preproc.flac")) ∈ (MuxMulti.process_episode env job).2 := by
  unfold MuxMulti.process_episode MuxMulti.process_episode.finishMux
    MuxMulti.preproc_vf_audio_to_temp_flac run_subprocess MuxMulti.cleanupTemp
  simp only [hp1, hp2, hjpn, hfr, hout, hoff, hdry, htmp]
  simp only [Bool.false_and, Bool.or_true, Bool.not_false, Bool.and_true, Bool.and_self]
  simp [hpre]
  split <;> simp

/-- An `unlink` failure is swallowed (`except Exception: pass`): the
whole outcome of `mux_multi.process_episode` — result record and effect
trace — is unchanged whether or not the deletion raises. -/
theorem muxmulti_unlink_failure_swallowed (env : Env) (job : MuxMulti.EpisodeJob) :
    MuxMulti.process_episode {env with unlinkFails := true} job =
      MuxMulti.process_episode {env with unlinkFails := false} job := by
  cases env
  rfl

/-- C9 counterexample: a packaged-pipeline episode (vf_to_vostfr, offset
150 ms, so a temp artifact is produced) whose mux succeeds, yet whose
effect trace contains no deletion: the packaged processors never delete
the temp artifact. -/
theorem C9_counterexample_no_cleanup_in_processor :
    (process_episode_vf_to_vostfr
        ⟨.ok ⟨[0], [1], [2], [], [(1, "jpn")], [(2, "fra")], [], none⟩,
         .ok ⟨[], [0], [], [], [(0, "fra")], [], [(0, 2)], none⟩,
         false, false, fun _ => 0, true, false⟩
        {key := "E07", base_path := "b/v.mkv", donor_path := "b/f.mkv",
         out_path := "o/out.mkv", offset_ms := 150}).1.success = true ∧
    (process_episode_vf_to_vostfr
        ⟨.ok ⟨[0], [1], [2], [], [(1, "jpn")], [(2, "fra")], [], none⟩,
         .ok ⟨[], [0], [], [], [(0, "fra")], [], [(0, 2)], none⟩,
         false, false, fun _ => 0, true, false⟩
        {key := "E07", base_path := "b/v.mkv", donor_path := "b/f.mkv",
         out_path := "o/out.mkv", offset_ms := 150}).1.ffmpeg_preproc_cmd.isSome = true ∧
    noUnlink (process_episode_vf_to_vostfr
        ⟨.ok ⟨[0], [1], [2], [], [(1, "jpn")], [(2, "fra")], [], none⟩,
         .ok ⟨[], [0], [], [], [(0, "fra")], [], [(0, 2)], none⟩,
         false, false, fun _ => 0, true, false⟩
        {key := "E07", base_path := "b/v.mkv", donor_path := "b/f.mkv",
         out_path := "o/out.mkv", offset_ms := 150}).2 = true := by
  refine ⟨?_, ?_, ?_⟩ <;> rfl

/-- C9 amended: the legacy `mux_multi.process_episode` attempts the temp
artifact's deletion after the mux — after success and after failure alike
— and an `unlink` failure is swallowed without changing the outcome; the
packaged `processor.py` pipelines, by contrast, never delete the temp
artifact in any branch. -/
theorem C9_cleanup_semantics :
    (∀ env job, noUnlink (process_episode_vf_to_vostfr env job).2 = true) ∧
    (∀ env job, noUnlink (process_episode_vostfr_to_vf env job).2 = true) ∧
    (∀ (env : Env) (job : MuxMulti.EpisodeJob) (ms1 ms2 : MediaStreams) (vo fr : Nat),
      env.probeBase = .ok ms1 → env.probeDonor = .ok ms2 →
      find_first_jpn_audio_index ms1 = some vo →
      select_fr_audio_stream ms2 = some fr →
      env.outExists = false → (job.offset_ms != 0) = true →
      env.tmpExists = true → job.dry_run = false →
      env.runRc (preproc_cmd_core job.vf_path fr
        (joinPath (joinPath (parentDir job.out_path) ".temp_mux")
          (job.key ++ "_vf_preproc.flac"))
        job.offset_ms (decide_speedfix ms1 ms2 job.no_speedfix) (channelsArg ms2 fr)) = 0 →
      Effect.unlink (joinPath (joinPath (parentDir job.out_path) ".temp_mux")
        (job.key ++ "_vf_preproc.flac")) ∈ (MuxMulti.process_episode env job).2) ∧
    (∀ (env : Env) (job : MuxMulti.EpisodeJob),
      MuxMulti.process_episode {env with unlinkFails := true} job =
        MuxMulti.process_episode {env with unlinkFails := false} job) :=
  ⟨vf_to_vostfr_never_unlinks, vostfr_to_vf_never_unlinks,
   fun env job ms1 ms2 vo fr hp1 hp2 hjpn hfr hout hoff htmp hdry hpre =>
     muxmulti_cleanup_attempted env job ms1 ms2 vo fr hp1 hp2 hjpn hfr hout hoff htmp hdry hpre,
   muxmulti_unlink_failure_swallowed⟩

/-- Witness for C9 at a concrete legacy-pipeline episode. -/
theorem C9_cleanup_semantics_witness :
    Effect.unlink "o/.temp_mux/E01_vf_preproc.flac" ∈
      (MuxMulti.process_episode
        ⟨.ok ⟨[0], [1], [2], [], [(1, "jpn")], [(2, "fra")], [], none⟩,
         .ok ⟨[], [0], [], [], [(0, "fra")], [], [(0, 2)], none⟩,
         false, false, fun _ => 0, true, false⟩
        {key := "E01", vostfr_path := "b/v.mkv", vf_path := "b/f.mkv",
         out_path := "o/out.mkv", offset_ms := 150}).2 :=
  (C9_cleanup_semantics.2.2.1
    ⟨.ok ⟨[0], [1], [2], [], [(1, "jpn")], [(2, "fra")], [], none⟩,
     .ok ⟨[], [0], [], [], [(0, "fra")], [], [(0, 2)], none⟩,
     false, false, fun _ => 0, true, false⟩
    {key := "E01", vostfr_path := "b/v.mkv", vf_path := "b/f.mkv",
     out_path := "o/out.mkv", offset_ms := 150}
    ⟨[0], [1], [2], [], [(1, "jpn")], [(2, "fra")], [], none⟩
    ⟨[], [0], [], [], [(0, "fra")], [], [(0, 2)], none⟩
    1 0 rfl rfl rfl rfl rfl rfl rfl rfl rfl)

/-! ### Claim C10 -/

/-- C10: when the destination output already exists and `force` is off,
every episode pipeline (both packaged directions and the legacy script)
returns a non-fatal per-episode failure result, and its effect trace
contains nothing but the ffprobe inspections — no preprocessing command,
no mux command, no mkdir, no deletion, no copy — so the pre-existing
output is untouched and the batch does not crash. -/
theorem C10_existing_output_early_failure (env : Env) (job : EpisodeJob)
    (hout : env.outExists = true) (hforce : job.force = false) :
    ((process_episode_vf_to_vostfr env job).1.success = false ∧
      (process_episode_vf_to_vostfr env job).2.all Effect.isProbe = true) ∧
    ((process_episode_vostfr_to_vf env job).1.success = false ∧
      (process_episode_vostfr_to_vf env job).2.all Effect.isProbe = true) ∧
    (∀ job2 : MuxMulti.EpisodeJob, job2.force = false →
      (MuxMulti.process_episode env job2).1.success = false ∧
      (MuxMulti.process_episode env job2).2.all Effect.isProbe = true) := by
  refine ⟨?_, ?_, ?_⟩
  · unfold process_episode_vf_to_vostfr
    cases env.probeBase with
    | error e => exact ⟨rfl, rfl⟩
    | ok ms1 =>
      cases env.probeDonor with
      | error e => exact ⟨rfl, rfl⟩
      | ok ms2 =>
        dsimp only
        cases find_first_jpn_audio_index ms1 with
        | none => exact ⟨rfl, rfl⟩
        | some vo =>
          dsimp only
          cases select_fr_audio_stream ms2 with
          | none => exact ⟨rfl, rfl⟩
          | some fr =>
            dsimp only
            rw [if_pos (by rw [hout, hforce]; rfl)]
            exact ⟨rfl, rfl⟩
  · unfold process_episode_vostfr_to_vf
    cases env.probeBase with
    | error e => exact ⟨rfl, rfl⟩
    | ok ms1 =>
      cases env.probeDonor with
      | error e => exact ⟨rfl, rfl⟩
      | ok ms2 =>
        dsimp only
        cases find_first_jpn_audio_index ms2 with
        | none => exact ⟨rfl, rfl⟩
        | some vo =>
          dsimp only
          cases select_fr_audio_stream ms1 with
          | none => exact ⟨rfl, rfl⟩
          | some fr =>
            dsimp only
            rw [if_pos (by rw [hout, hforce]; rfl)]
            exact ⟨rfl, rfl⟩
  · intro job2 hforce2
    unfold MuxMulti.process_episode
    cases env.probeBase with
    | error e => exact ⟨rfl, rfl⟩
    | ok ms1 =>
      cases env.probeDonor with
      | error e => exact ⟨rfl, rfl⟩
      | ok ms2 =>
        dsimp only
        cases find_first_jpn_audio_index ms1 with
        | none => exact ⟨rfl, rfl⟩
        | some vo =>
          dsimp only
          cases select_fr_audio_stream ms2 with
          | none => exact ⟨rfl, rfl⟩
          | some fr =>
            dsimp only
            rw [if_pos (by rw [hout, hforce2]; rfl)]
            exact ⟨rfl, rfl⟩

/-- Witness for C10 at a concrete environment (existing output, healthy
streams on both sides). -/
theorem C10_existing_output_early_failure_witness :
    ((process_episode_vf_to_vostfr
        ⟨.ok ⟨[0], [1], [], [], [(1, "jpn")], [], [], none⟩,
         .ok ⟨[], [0], [], [], [(0, "fra")], [], [], none⟩,
         true, false, fun _ => 0, false, false⟩
        {key := "E05", base_path := "a.mkv", donor_path := "b.mkv",
         out_path := "o/out.mkv"}).1.success = false ∧
      (process_episode_vf_to_vostfr
        ⟨.ok ⟨[0], [1], [], [], [(1, "jpn")], [], [], none⟩,
         .ok ⟨[], [0], [], [], [(0, "fra")], [], [], none⟩,
         true, false, fun _ => 0, false, false⟩
        {key := "E05", base_path := "a.mkv", donor_path := "b.mkv",
         out_path := "o/out.mkv"}).2.all Effect.isProbe = true) ∧
    ((MuxMulti.process_episode
        ⟨.ok ⟨[0], [1], [], [], [(1, "jpn")], [], [], none⟩,
         .ok ⟨[], [0], [], [], [(0, "fra")], [], [], none⟩,
         true, false, fun _ => 0, false, false⟩
        {key := "E05", vostfr_path := "a.mkv", vf_path := "b.mkv",
         out_path := "o/out.mkv"}).1.success = false ∧
      (MuxMulti.process_episode
        ⟨.ok ⟨[0], [1], [], [], [(1, "jpn")], [], [], none⟩,
         .ok ⟨[], [0], [], [], [(0, "fra")], [], [], none⟩,
         true, false, fun _ => 0, false, false⟩
        {key := "E05", vostfr_path := "a.mkv", vf_path := "b.mkv",
         out_path := "o/out.mkv"}).2.all Effect.isProbe = true) :=
  ⟨(C10_existing_output_early_failure
      ⟨.ok ⟨[0], [1], [], [], [(1, "jpn")], [], [], none⟩,
       .ok ⟨[], [0], [], [], [(0, "fra")], [], [], none⟩,
       true, false, fun _ => 0, false, false⟩
      {key := "E05", base_path := "a.mkv", donor_path := "b.mkv", out_path := "o/out.mkv"}
      rfl rfl).1,
   (C10_existing_output_early_failure
      ⟨.ok ⟨[0], [1], [], [], [(1, "jpn")], [], [], none⟩,
       .ok ⟨[], [0], [], [], [(0, "fra")], [], [], none⟩,
       true, false, fun _ => 0, false, false⟩
      {key := "E05", base_path := "a.mkv", donor_path := "b.mkv", out_path := "o/out.mkv"}
      rfl rfl).2.2
     {key := "E05", vostfr_path := "a.mkv", vf_path := "b.mkv", out_path := "o/out.mkv"} rfl⟩

/-! ### Claim C7 -/

/-- C7 evaluation at the failing input: in `vostfr_to_vf` mode with a
150 ms offset (so the donor VOSTFR audio is replaced by the preprocessed
temp FLAC as the second input), the built mux command takes its subtitle
and attachment passthrough (`-map 1:s?`, `-map 1:t?`) from input 1 —
which is the audio-only temp artifact `o/.temp_mux/E07_preproc.flac` —
and never references the donor VOSTFR file `d/vostfr.mkv` at all, so the
VOSTFR subtitles and attachments are not carried into the output. -/
theorem C7_failing_input_subs_mapped_from_temp :
    (process_episode_vostfr_to_vf
        ⟨.ok ⟨[0], [1], [], [], [(1, "fra")], [], [(1, 2)], none⟩,
         .ok ⟨[0], [1], [2], [3], [(1, "jpn")], [(2, "fra")], [(1, 2)], none⟩,
         false, false, fun _ => 0, false, false⟩
        {key := "E07", base_path := "d/vf.mkv", donor_path := "d/vostfr.mkv",
         out_path := "o/out.mkv", offset_ms := 150}).1.success = true ∧
    ((process_episode_vostfr_to_vf
        ⟨.ok ⟨[0], [1], [], [], [(1, "fra")], [], [(1, 2)], none⟩,
         .ok ⟨[0], [1], [2], [3], [(1, "jpn")], [(2, "fra")], [(1, 2)], none⟩,
         false, false, fun _ => 0, false, false⟩
        {key := "E07", base_path := "d/vf.mkv", donor_path := "d/vostfr.mkv",
         out_path := "o/out.mkv", offset_ms := 150}).1.ffmpeg_mux_cmd.getD []).contains
      "1:s?" = true ∧
    ((process_episode_vostfr_to_vf
        ⟨.ok ⟨[0], [1], [], [], [(1, "fra")], [], [(1, 2)], none⟩,
         .ok ⟨[0], [1], [2], [3], [(1, "jpn")], [(2, "fra")], [(1, 2)], none⟩,
         false, false, fun _ => 0, false, false⟩
        {key := "E07", base_path := "d/vf.mkv", donor_path := "d/vostfr.mkv",
         out_path := "o/out.mkv", offset_ms := 150}).1.ffmpeg_mux_cmd.getD []).contains
      "1:t?" = true ∧
    ((process_episode_vostfr_to_vf
        ⟨.ok ⟨[0], [1], [], [], [(1, "fra")], [], [(1, 2)], none⟩,
         .ok ⟨[0], [1], [2], [3], [(1, "jpn")], [(2, "fra")], [(1, 2)], none⟩,
         false, false, fun _ => 0, false, false⟩
        {key := "E07", base_path := "d/vf.mkv", donor_path := "d/vostfr.mkv",
         out_path := "o/out.mkv", offset_ms := 150}).1.ffmpeg_mux_cmd.getD []).contains
      "o/.temp_mux/E07_preproc.flac" = true ∧
    ((process_episode_vostfr_to_vf
        ⟨.ok ⟨[0], [1], [], [], [(1, "fra")], [], [(1, 2)], none⟩,
         .ok ⟨[0], [1], [2], [3], [(1, "jpn")], [(2, "fra")], [(1, 2)], none⟩,
         false, false, fun _ => 0, false, false⟩
        {key := "E07", base_path := "d/vf.mkv", donor_path := "d/vostfr.mkv",
         out_path := "o/out.mkv", offset_ms := 150}).1.ffmpeg_mux_cmd.getD []).contains
      "d/vostfr.mkv" = false := by
  refine ⟨?_, ?_, ?_, ?_, ?_⟩ <;> rfl
